import Mathlib

/-!
Verification development for the PEN.ai Flask backend (src/app.py together
with src/static_qa_config.py): a shallow embedding of the answer-resolution
pipeline (`find_best_answer`), the conversation tracker, the response
enhancer, the vector-search guards, and the `difflib.SequenceMatcher`
similarity used by the fuzzy tier, with theorems settling the behavioural
claims about them.

Modelling conventions:
* Python strings are modelled as `List Char` (`Str`), so every operation
  is a structurally recursive, kernel-computable function.  The repository
  data is ASCII, and `str.lower` / `str.strip` are modelled on the ASCII
  range.
* Python floats are modelled as exact rationals (`ℚ`).
* External collaborators (translator, OpenAI completion and embedding,
  open-days cache, family lookup, the square root inside `np.linalg.norm`,
  and the regex-based answer reformatting block of app.py lines 589-679,
  whose output no claim inspects) are inputs of the model, collected in
  `Env`.
* Python `dict` \x7bsession_id: tracker\x7d is an association list; Python
  `set` is an insertion-ordered duplicate-free list; in-place mutation of a
  tracker stored in the dict is modelled by writing the updated tracker
  back under the same key.  Timestamps are omitted (no claim mentions
  them).
-/

namespace Emily

/-- Python strings are modelled as lists of characters. -/
abbrev Str := List Char

/-- ASCII lower-casing of one character, as `str.lower` acts on the
repository data (which is ASCII). -/
def lowerChar (c : Char) : Char :=
  if 65 ≤ c.toNat ∧ c.toNat ≤ 90 then Char.ofNat (c.toNat + 32) else c

/-- Model of `str.lower`. -/
def lowerStr (s : Str) : Str := s.map lowerChar

/-- Python whitespace characters recognised by `str.strip`. -/
def pyIsSpace (c : Char) : Bool :=
  c == ' ' || c == '\t' || c == '\n' || c == '\r' ||
  c == Char.ofNat 11 || c == Char.ofNat 12

/-- Remove leading whitespace. -/
def stripL : Str → Str
  | [] => []
  | c :: s => if pyIsSpace c then stripL s else c :: s

/-- Model of `str.strip` (both ends). -/
def strip (s : Str) : Str := ((stripL ((stripL s).reverse)).reverse)

/-- Boolean prefix test. -/
def isPrefixB : Str → Str → Bool
  | [], _ => true
  | _ :: _, [] => false
  | a :: s, b :: t => a == b && isPrefixB s t

/-- Model of the Python substring test `needle in hay` (contiguous
substring; the empty needle is always contained). -/
def containsSub (hay needle : Str) : Bool :=
  match hay with
  | [] => needle.isEmpty
  | _ :: t => isPrefixB needle hay || containsSub t needle

/-- Model of `sep.join(xs)`. -/
def intercalateL (sep : Str) : List Str → Str
  | [] => []
  | [x] => x
  | x :: xs => x ++ sep ++ intercalateL sep xs

/-- Fuelled worker for `replaceAll`; the fuel is an upper bound on the
number of scanning steps (for a non-empty pattern one unit per consumed
character suffices). -/
def replaceAllAux (pat rep : Str) : Nat → Str → Str
  | 0, s => s
  | _ + 1, [] => []
  | fuel + 1, c :: s =>
    if isPrefixB pat (c :: s) then rep ++ replaceAllAux pat rep fuel ((c :: s).drop pat.length)
    else c :: replaceAllAux pat rep fuel s

/-- Model of Python `s.replace(pat, rep)` (left-to-right, non-overlapping;
the patterns used by the code are non-empty). -/
def replaceAll (s pat rep : Str) : Str := replaceAllAux pat rep (s.length + 1) s

/-- Lexicographic comparison of strings by character code, as Python `<=`
compares the ASCII ISO-date strings sorted by tier 1. -/
def lexLeStr : Str → Str → Bool
  | [], _ => true
  | _ :: _, [] => false
  | a :: s, b :: t =>
    if a.toNat < b.toNat then true
    else if b.toNat < a.toNat then false
    else lexLeStr s t

/-- Stable insertion used by `sortStable`: a later element is placed after
every earlier element that compares `le` to it. -/
def insertStable (le : α → α → Bool) (x : α) : List α → List α
  | [] => [x]
  | y :: ys => if le y x then y :: insertStable le x ys else x :: y :: ys

/-- Stable sort (model of Python `sorted`): elements are inserted in their
original order, each new element going after the elements `le` to it, so
ties keep their original relative order.  Tier 1 only inspects the head of
the sorted list (the first event attaining the minimal ISO date). -/
def sortStable (le : α → α → Bool) (l : List α) : List α :=
  l.foldl (fun acc x => insertStable le x acc) []

/-- Model of Python truthiness for an optional string (`None` and `""` are
falsy). -/
def pyTruthyS (s : Option Str) : Bool :=
  match s with
  | none => false
  | some s => !s.isEmpty

/-- Lookup in the association list modelling the `conversation_memory`
dict. -/
def assocLookup (m : List (Str × α)) (k : Str) : Option α :=
  (m.find? (fun p => decide (p.1 = k))).map (fun p => p.2)

/-- Replace the value stored under an existing key (Python in-place
mutation of the tracker object held by the dict). -/
def assocUpdate (m : List (Str × α)) (k : Str) (v : α) : List (Str × α) :=
  m.map (fun p => if p.1 = k then (k, v) else p)

/-- One entry of `STATIC_QA_LIST` (src/static_qa_config.py).  Every entry
of the file carries all six fields, so `url` and `label` are plain
strings. -/
structure QA where
  key : Str
  language : Str
  answer : Str
  url : Str
  label : Str
  variants : List Str
deriving DecidableEq

/-- Variant list scanned by tiers 2 and 3: `[qa['key']] + qa.get('variants', [])`. -/
def variantList (qa : QA) : List Str := qa.key :: qa.variants

/-- Chunk A of the static answer table (entries 1-27 of src/static_qa_config.py, in file order). -/
def STATIC_QAS_A : List QA := [
  { key := "admissions".data, language := "en".data,
    answer := "Cheltenham College admissions information, entry process and who to contact.".data,
    url := "https://www.cheltenhamcollege.org/admissions/".data, label := "Admissions".data,
    variants := ["admissions".data, "apply".data, "join".data, "application".data, "registration".data, "how to apply".data, "entry process".data] },
  { key := "enquiry".data, language := "en".data,
    answer := "Send an enquiry to our Admissions team and we’ll be in touch with next steps.".data,
    url := "https://www.cheltenhamcollege.org/contact-us/".data, label := "Send an enquiry".data,
    variants := ["enquiry".data, "enquire".data, "contact admissions".data, "ask a question".data, "request information".data] },
  { key := "open events".data, language := "en".data,
    answer := "We host open mornings and visit opportunities throughout the year. Choose a date and register online.".data,
    url := "https://www.cheltenhamcollege.org/admissions/visit-us/".data, label := "Open events".data,
    variants := ["open morning".data, "open day".data, "visit".data, "tour".data, "open evening".data] },
  { key := "fees_vat".data, language := "en".data,
    answer := "School fees at Cheltenham College **do include VAT** in line with current UK regulations. Please see our [fees page](https://www.cheltenhamcollege.org/admissions/fees/) for details of charges.".data,
    url := "https://www.cheltenhamcollege.org/admissions/fees/".data, label := "Fees and VAT".data,
    variants := ["vat".data, "vat on fees".data, "fees vat".data, "fees include vat".data, "school fees vat".data, "do fees include vat".data] },
  { key := "scholarships".data, language := "en".data,
    answer := "We offer a range of scholarships and bursaries. Guidance and criteria are available online.".data,
    url := "https://www.cheltenhamcollege.org/scholarships-key-dates/".data, label := "Scholarships & bursaries".data,
    variants := ["scholarships".data, "bursaries".data, "financial aid".data, "awards".data] },
  { key := "term dates".data, language := "en".data,
    answer := "Term dates and the school calendar are available online.".data,
    url := "https://www.cheltenhamcollege.org/key-information-for-parents/term-dates/".data, label := "Term dates".data,
    variants := ["term dates".data, "calendar".data, "half term".data, "holiday dates".data] },
  { key := "sixth form".data, language := "en".data,
    answer := "Explore Sixth Form life, subjects and opportunities.".data,
    url := "https://www.cheltenhamcollege.org/college/sixth-form/".data, label := "Sixth Form".data,
    variants := ["sixth form".data, "a level".data, "a-level".data] },
  { key := "subjects".data, language := "en".data,
    answer := "Find details of subjects and the academic programme.".data,
    url := "https://www.cheltenhamcollege.org/college/lower-college-curriculum/".data, label := "Subjects & curriculum".data,
    variants := ["subjects".data, "curriculum".data, "departments".data, "academic".data] },
  { key := "pastoral".data, language := "en".data,
    answer := "Pastoral care and wellbeing information.".data,
    url := "https://www.cheltenhamcollege.org/college/health-wellbeing/".data, label := "Pastoral care".data,
    variants := ["pastoral".data, "wellbeing".data, "support".data] },
  { key := "boarding".data, language := "en".data,
    answer := "Cheltenham College offers boarding and day places. Read about our boarding information and principles.".data,
    url := "https://www.cheltenhamcollege.org/college/houses/".data, label := "Boarding".data,
    variants := ["boarding".data, "houses".data, "boarder".data, "boarding principles".data] },
  { key := "safeguarding".data, language := "en".data,
    answer := "Read about safeguarding and our policies.".data,
    url := "https://www.cheltenhamcollege.org/wp-content/uploads/2025/02/Modern-Slavery-Statement.pdf".data, label := "Safeguarding".data,
    variants := ["safeguarding".data, "child protection".data] },
  { key := "send".data, language := "en".data,
    answer := "Information about learning support (SEND).".data,
    url := "https://www.cheltenhamcollege.org/health-promotion/".data, label := "Learning support (SEND)".data,
    variants := ["send".data, "sen".data, "learning support".data, "academic support".data, "eal".data] },
  { key := "behaviour policy".data, language := "en".data,
    answer := "Read the behaviour policy.".data,
    url := "https://www.cheltenhamcollege.org/wp-content/uploads/2025/02/Modern-Slavery-Statement.pdf".data, label := "Behaviour policy".data,
    variants := ["behaviour".data, "discipline".data, "code of conduct".data] },
  { key := "anti-bullying".data, language := "en".data,
    answer := "Read the anti-bullying policy.".data,
    url := "https://www.cheltenhamcollege.org/wp-content/uploads/2025/02/Modern-Slavery-Statement.pdf".data, label := "Anti-bullying policy".data,
    variants := ["anti bullying".data, "bullying".data] },
  { key := "complaints".data, language := "en".data,
    answer := "Read the complaints policy and procedure.".data,
    url := "https://www.cheltenhamcollege.org/wp-content/uploads/2025/02/Modern-Slavery-Statement.pdf".data, label := "Complaints policy".data,
    variants := ["complaints".data, "complaint procedure".data] },
  { key := "isi report".data, language := "en".data,
    answer := "Read the latest inspection (ISI) report.".data,
    url := "https://www.cheltenhamcollege.org/wp-content/uploads/2025/02/Modern-Slavery-Statement.pdf".data, label := "ISI report".data,
    variants := ["isi".data, "inspection report".data, "isi inspection".data] },
  { key := "co-curricular".data, language := "en".data,
    answer := "Co-curricular opportunities, clubs and activities.".data,
    url := "https://www.cheltenhamcollege.org/college/co-curricular/".data, label := "Co-curricular".data,
    variants := ["co-curricular".data, "clubs".data, "activities".data, "societies".data] },
  { key := "sport".data, language := "en".data,
    answer := "Sport at school, including fixtures and programmes.".data,
    url := "https://www.cheltenhamcollege.org/college/sport/".data, label := "Sport".data,
    variants := ["sport".data, "games".data, "pe".data, "fixtures".data] },
  { key := "music".data, language := "en".data,
    answer := "Music opportunities and ensembles.".data,
    url := "https://www.cheltenhamcollege.org/individual-music-lessons/".data, label := "Music".data,
    variants := ["music".data, "choir".data, "orchestra".data] },
  { key := "results".data, language := "en".data,
    answer := "Recent academic results and headline outcomes.".data,
    url := "https://www.cheltenhamcollege.org/college/2025-results/".data, label := "Results".data,
    variants := ["results".data, "exam results".data, "academic results".data, "grades".data] },
  { key := "destinations".data, language := "en".data,
    answer := "Leavers’ destinations and university entries.".data,
    url := "https://www.cheltenhamcollege.org/".data, label := "Leavers’ destinations".data,
    variants := ["destinations".data, "university destinations".data, "leavers".data] },
  { key := "uniform".data, language := "en".data,
    answer := "Uniform information and outfitters.".data,
    url := "https://www.cheltenhamcollege.org/key-information-for-parents/uniform/".data, label := "Uniform".data,
    variants := ["uniform".data, "outfitters".data] },
  { key := "transport".data, language := "en".data,
    answer := "Transport routes and travel information.".data,
    url := "https://www.cheltenhamcollege.org/key-information-for-parents/bus-service/".data, label := "Transport".data,
    variants := ["transport".data, "bus".data, "coach".data, "minibus".data] },
  { key := "governors".data, language := "en".data,
    answer := "Meet the Governors / Trustees.".data,
    url := "https://www.cheltenhamcollege.org/".data, label := "Governors".data,
    variants := ["governors".data, "board of governors".data, "trustees".data] },
  { key := "staff".data, language := "en".data,
    answer := "Find staff information and contacts.".data,
    url := "https://www.cheltenhamcollege.org/about-us/our-staff/".data, label := "Staff".data,
    variants := ["staff".data, "staff list".data, "directory".data, "teachers".data] },
  { key := "policies".data, language := "en".data,
    answer := "Browse all policies.".data,
    url := "https://www.cheltenhamcollege.org/about-us/aims-policies/".data, label := "Policies".data,
    variants := ["policies".data, "policy list".data] },
  { key := "privacy".data, language := "en".data,
    answer := "Read our Privacy Policy.".data,
    url := "https://www.cheltenhamcollege.org/privacy-terms/".data, label := "Privacy Policy".data,
    variants := ["privacy".data, "gdpr".data, "data protection".data] }
]

/-- Chunk B of the static answer table (entries 28-54 of src/static_qa_config.py, in file order). -/
def STATIC_QAS_B : List QA := [
  { key := "cookies".data, language := "en".data,
    answer := "Cookie Policy.".data,
    url := "https://www.cheltenhamcollege.org/".data, label := "Cookies".data,
    variants := ["cookies".data, "cookie policy".data] },
  { key := "contact".data, language := "en".data,
    answer := "Get in touch with the school team.".data,
    url := "https://www.cheltenhamcollege.org/contact-us/".data, label := "Contact".data,
    variants := ["contact".data, "contact us".data, "how to find us".data, "phone number".data, "email".data] },
  { key := "policy::13 scholarship application form 2026".data, language := "en".data,
    answer := "Read the 13 Scholarship Application Form 2026.".data,
    url := "https://cheltenham-college.s3.eu-west-2.amazonaws.com/wp-content/uploads/2025/09/01090352/13-Scholarship-Application-Form-2026.pdf".data, label := "13 Scholarship Application Form 2026".data,
    variants := ["policy scholarship application form".data, "13 scholarship application form 2026".data, "scholarship application form".data] },
  { key := "policy::16 scholarship application form 2025".data, language := "en".data,
    answer := "Read the 16 Scholarship Application Form 2025.".data,
    url := "https://cheltenham-college.s3.eu-west-2.amazonaws.com/wp-content/uploads/2025/09/01090417/16-Scholarship-Application-Form-2025.pdf".data, label := "16 Scholarship Application Form 2025".data,
    variants := ["16 scholarship application form 2025".data, "policy scholarship application form".data, "scholarship application form".data] },
  { key := "policy::2023 overseas schools 1".data, language := "en".data,
    answer := "Read the 2023 Overseas Schools 1.".data,
    url := "https://cheltenham-college.s3.eu-west-2.amazonaws.com/wp-content/uploads/2023/11/27145407/2023-Overseas-Schools-1.pdf".data, label := "2023 Overseas Schools 1".data,
    variants := ["policy overseas schools".data, "2023 overseas schools 1".data, "overseas schools".data] },
  { key := "policy::admissions policy cc".data, language := "en".data,
    answer := "Read the Admissions Policy Cc.".data,
    url := "https://cheltenham-college.s3.eu-west-2.amazonaws.com/wp-content/uploads/2025/06/24143341/Admissions-Policy-CC.pdf".data, label := "Admissions Policy Cc".data,
    variants := ["admissions  cc".data, "admissions policy cc".data, "policy admissions cc".data, "admissions cc".data] },
  { key := "policy::anti bullying p policy".data, language := "en".data,
    answer := "Read the Anti Bullying P Policy.".data,
    url := "https://cheltenham-college.s3.eu-west-2.amazonaws.com/wp-content/uploads/2025/06/24143508/Anti-Bullying-P.pdf".data, label := "Anti Bullying P Policy".data,
    variants := ["anti bullying p policy".data, "anti bullying p".data, "policy anti bullying p".data] },
  { key := "policy::anti bullying policy c".data, language := "en".data,
    answer := "Read the Anti Bullying Policy C.".data,
    url := "https://cheltenham-college.s3.eu-west-2.amazonaws.com/wp-content/uploads/2025/06/24143718/Anti-Bullying-Policy-C.pdf".data, label := "Anti Bullying Policy C".data,
    variants := ["anti bullying c".data, "anti bullying  c".data, "anti bullying policy c".data, "policy anti bullying c".data] },
  { key := "policy::assistant camp co ordinator".data, language := "en".data,
    answer := "Read the Assistant Camp Co Ordinator.".data,
    url := "https://cheltenham-college.s3.eu-west-2.amazonaws.com/wp-content/uploads/2025/08/27134315/Assistant-Camp-Co-Ordinator.pdf".data, label := "Assistant Camp Co Ordinator".data,
    variants := ["policy assistant camp co ordinator".data, "assistant camp co ordinator".data] },
  { key := "policy::attendance and registration policy c".data, language := "en".data,
    answer := "Read the Attendance and Registration Policy C.".data,
    url := "https://cheltenham-college.s3.eu-west-2.amazonaws.com/wp-content/uploads/2025/09/08143223/Attendance-and-Registration-Policy-C.pdf".data, label := "Attendance and Registration Policy C".data,
    variants := ["attendance and registration c".data, "policy attendance and registration c".data, "attendance and registration  c".data, "attendance and registration policy c".data] },
  { key := "policy::attendance and registration policy p".data, language := "en".data,
    answer := "Read the Attendance and Registration Policy P.".data,
    url := "https://cheltenham-college.s3.eu-west-2.amazonaws.com/wp-content/uploads/2025/09/09090834/Attendance-and-Registration-Policy-P-.pdf".data, label := "Attendance and Registration Policy P".data,
    variants := ["attendance and registration p".data, "policy attendance and registration p".data, "attendance and registration  p".data, "attendance and registration policy p".data] },
  { key := "policy::boarding principles p".data, language := "en".data,
    answer := "Read the Boarding Principles P.".data,
    url := "https://cheltenham-college.s3.eu-west-2.amazonaws.com/wp-content/uploads/2025/08/06145039/Boarding-Principles-P.pdf".data, label := "Boarding Principles P".data,
    variants := ["policy boarding principles p".data, "boarding principles p".data] },
  { key := "policy::bursary policy cc".data, language := "en".data,
    answer := "Read the Bursary Policy Cc.".data,
    url := "https://cheltenham-college.s3.eu-west-2.amazonaws.com/wp-content/uploads/2025/09/09133612/Bursary-Policy-CC.pdf".data, label := "Bursary Policy Cc".data,
    variants := ["bursary policy cc".data, "bursary cc".data, "policy bursary cc".data, "bursary  cc".data] },
  { key := "policy::bus timetable".data, language := "en".data,
    answer := "Read the Bus Timetable.".data,
    url := "https://cheltenham-college.s3.eu-west-2.amazonaws.com/wp-content/uploads/2024/09/19091752/Bus-Timetable.pdf".data, label := "Bus Timetable".data,
    variants := ["bus timetable".data, "policy bus timetable".data] },
  { key := "policy::cc sept 23".data, language := "en".data,
    answer := "Read the Cc Sept 23.".data,
    url := "https://cheltenham-college.s3.eu-west-2.amazonaws.com/wp-content/uploads/2023/03/30141237/CC-Sept-23.pdf".data, label := "Cc Sept 23".data,
    variants := ["cc sept 23".data, "cc sept".data, "policy cc sept".data] },
  { key := "policy::cc279 isi college 2023 digi".data, language := "en".data,
    answer := "Read the Cc279 Isi College 2023 Digi.".data,
    url := "https://cheltenham-college.s3.eu-west-2.amazonaws.com/wp-content/uploads/2023/06/21140127/CC279-ISI-College-2023-Digi.pdf".data, label := "Cc279 Isi College 2023 Digi".data,
    variants := ["cc279 isi college 2023 digi".data, "policy cc isi college digi".data, "cc isi college digi".data] },
  { key := "policy::cctv policy cc".data, language := "en".data,
    answer := "Read the Cctv Policy Cc.".data,
    url := "https://cheltenham-college.s3.eu-west-2.amazonaws.com/wp-content/uploads/2024/11/27093645/CCTV-Policy-CC.pdf".data, label := "Cctv Policy Cc".data,
    variants := ["cctv cc".data, "cctv  cc".data, "policy cctv cc".data, "cctv policy cc".data] },
  { key := "policy::cctv privacy impact assessment cc policy".data, language := "en".data,
    answer := "Read the Cctv Privacy Impact Assessment Cc Policy.".data,
    url := "https://cheltenham-college.s3.eu-west-2.amazonaws.com/wp-content/uploads/2024/11/27093718/CCTV-Privacy-Impact-Assessment-CC.pdf".data, label := "Cctv Privacy Impact Assessment Cc Policy".data,
    variants := ["cctv privacy impact assessment cc policy".data, "cctv privacy impact assessment cc".data, "policy cctv privacy impact assessment cc".data] },
  { key := "policy::cheltenham college isi report".data, language := "en".data,
    answer := "Read the Cheltenham College Isi Report.".data,
    url := "https://cheltenham-college.s3.eu-west-2.amazonaws.com/wp-content/uploads/2023/05/24135508/Cheltenham-College-ISI-Report.pdf".data, label := "Cheltenham College Isi Report".data,
    variants := ["policy cheltenham college isi report".data, "cheltenham college isi report".data] },
  { key := "policy::cheltenham college preparatory school eqi report v5 2023 05 231".data, language := "en".data,
    answer := "Read the Cheltenham College Preparatory School Eqi Report V5 2023 05 231.".data,
    url := "https://cheltenham-college.s3.eu-west-2.amazonaws.com/wp-content/uploads/2023/05/24135533/Cheltenham-College-Preparatory-School-EQI-report-v5-2023-05-231.pdf".data, label := "Cheltenham College Preparatory School Eqi Report V5 2023 05 231".data,
    variants := ["cheltenham college preparatory school eqi report v5 2023 05 231".data, "policy cheltenham college preparatory school eqi report v".data, "cheltenham college preparatory school eqi report v".data] },
  { key := "policy::cheltenham prep uniform list 2023".data, language := "en".data,
    answer := "Read the Cheltenham Prep Uniform List 2023.".data,
    url := "https://cheltenham-college.s3.eu-west-2.amazonaws.com/wp-content/uploads/2023/10/27142315/Cheltenham-Prep-Uniform-List-2023.pdf".data, label := "Cheltenham Prep Uniform List 2023".data,
    variants := ["policy cheltenham prep uniform list".data, "cheltenham prep uniform list".data, "cheltenham prep uniform list 2023".data] },
  { key := "policy::climate action plan 2024.25".data, language := "en".data,
    answer := "Read the Climate Action Plan 2024.25.".data,
    url := "https://cheltenham-college.s3.eu-west-2.amazonaws.com/wp-content/uploads/2024/11/08101137/Climate-Action-Plan-2024.25.pdf".data, label := "Climate Action Plan 2024.25".data,
    variants := ["policy climate action plan".data, "climate action plan".data, "climate action plan 2024.25".data] },
  { key := "policy::climate action report 2023 2024".data, language := "en".data,
    answer := "Read the Climate Action Report 2023 2024.".data,
    url := "https://cheltenham-college.s3.eu-west-2.amazonaws.com/wp-content/uploads/2024/09/10153304/Climate-Action-Report-2023-2024.pdf".data, label := "Climate Action Report 2023 2024".data,
    variants := ["climate action report 2023 2024".data, "climate action report".data, "policy climate action report".data] },
  { key := "policy::college additional costs 2025 26".data, language := "en".data,
    answer := "Read the College Additional Costs 2025 26.".data,
    url := "https://cheltenham-college.s3.eu-west-2.amazonaws.com/wp-content/uploads/2025/04/29124046/College-Additional-Costs-2025-26.pdf".data, label := "College Additional Costs 2025 26".data,
    variants := ["college additional costs 2025 26".data, "college additional costs".data, "policy college additional costs".data] },
  { key := "policy::college dining hall menu autumn 2025".data, language := "en".data,
    answer := "Read the College Dining Hall Menu Autumn 2025.".data,
    url := "https://cheltenham-college.s3.eu-west-2.amazonaws.com/wp-content/uploads/2025/09/01144432/College-Dining-Hall-Menu-Autumn-2025.pdf".data, label := "College Dining Hall Menu Autumn 2025".data,
    variants := ["college dining hall menu autumn".data, "college dining hall menu autumn 2025".data, "policy college dining hall menu autumn".data] },
  { key := "policy::college sports kit 2022 fva 180322".data, language := "en".data,
    answer := "Read the College Sports Kit 2022 Fva 180322.".data,
    url := "https://cheltenham-college.s3.eu-west-2.amazonaws.com/wp-content/uploads/2022/03/26061259/College-Sports-Kit-2022-FVA-180322.pdf".data, label := "College Sports Kit 2022 Fva 180322".data,
    variants := ["policy college sports kit fva".data, "college sports kit 2022 fva 180322".data, "college sports kit fva".data] },
  { key := "policy::college timeline anne cadbury room18".data, language := "en".data,
    answer := "Read the College Timeline Anne Cadbury Room18.".data,
    url := "https://cheltenham-college.s3.eu-west-2.amazonaws.com/wp-content/uploads/2023/08/30121907/College-Timeline-Anne-Cadbury-Room18.pdf".data, label := "College Timeline Anne Cadbury Room18".data,
    variants := ["college timeline anne cadbury room".data, "policy college timeline anne cadbury room".data, "college timeline anne cadbury room18".data] }
]

/-- Chunk C of the static answer table (entries 55-81 of src/static_qa_config.py, in file order). -/
def STATIC_QAS_C : List QA := [
  { key := "policy::curriculum policy c".data, language := "en".data,
    answer := "Read the Curriculum Policy C.".data,
    url := "https://cheltenham-college.s3.eu-west-2.amazonaws.com/wp-content/uploads/2024/10/08135850/Curriculum-Policy-C.pdf".data, label := "Curriculum Policy C".data,
    variants := ["policy curriculum c".data, "curriculum c".data, "curriculum policy c".data, "curriculum  c".data] },
  { key := "policy::curriculum policy p".data, language := "en".data,
    answer := "Read the Curriculum Policy P.".data,
    url := "https://cheltenham-college.s3.eu-west-2.amazonaws.com/wp-content/uploads/2024/10/03143650/Curriculum-Policy-P.pdf".data, label := "Curriculum Policy P".data,
    variants := ["curriculum policy p".data, "policy curriculum p".data, "curriculum  p".data, "curriculum p".data] },
  { key := "policy::dates and deadlines".data, language := "en".data,
    answer := "Read the Dates and Deadlines.".data,
    url := "https://cheltenham-college.s3.eu-west-2.amazonaws.com/wp-content/uploads/2022/09/23142756/Dates-and-Deadlines.pdf".data, label := "Dates and Deadlines".data,
    variants := ["dates and deadlines".data, "policy dates and deadlines".data] },
  { key := "policy::dining hall spring menu".data, language := "en".data,
    answer := "Read the Dining Hall Spring Menu.".data,
    url := "https://cheltenham-college.s3.eu-west-2.amazonaws.com/wp-content/uploads/2025/03/06161644/Dining-Hall-Spring-menu.pdf".data, label := "Dining Hall Spring Menu".data,
    variants := ["policy dining hall spring menu".data, "dining hall spring menu".data] },
  { key := "policy::eal policy c".data, language := "en".data,
    answer := "Read the Eal Policy C.".data,
    url := "https://cheltenham-college.s3.eu-west-2.amazonaws.com/wp-content/uploads/2025/06/09090207/EAL-Policy-C.pdf".data, label := "Eal Policy C".data,
    variants := ["policy eal c".data, "eal c".data, "eal  c".data, "eal policy c".data] },
  { key := "policy::eal policy p".data, language := "en".data,
    answer := "Read the Eal Policy P.".data,
    url := "https://cheltenham-college.s3.eu-west-2.amazonaws.com/wp-content/uploads/2025/06/10080227/EAL-Policy-P.pdf".data, label := "Eal Policy P".data,
    variants := ["eal  p".data, "policy eal p".data, "eal policy p".data, "eal p".data] },
  { key := "policy::energy policy cc".data, language := "en".data,
    answer := "Read the Energy Policy Cc.".data,
    url := "https://cheltenham-college.s3.eu-west-2.amazonaws.com/wp-content/uploads/2024/02/29155318/Energy-Policy-CC.pdf".data, label := "Energy Policy Cc".data,
    variants := ["energy cc".data, "energy policy cc".data, "energy  cc".data, "policy energy cc".data] },
  { key := "policy::evensong summer 2023".data, language := "en".data,
    answer := "Read the Evensong Summer 2023.".data,
    url := "https://cheltenham-college.s3.eu-west-2.amazonaws.com/wp-content/uploads/2023/05/04125841/Evensong-Summer-2023.pdf".data, label := "Evensong Summer 2023".data,
    variants := ["evensong summer".data, "evensong summer 2023".data, "policy evensong summer".data] },
  { key := "policy::fees supervisor july 25".data, language := "en".data,
    answer := "Read the Fees Supervisor July 25.".data,
    url := "https://cheltenham-college.s3.eu-west-2.amazonaws.com/wp-content/uploads/2025/09/01152139/Fees-Supervisor-July-25.pdf".data, label := "Fees Supervisor July 25".data,
    variants := ["fees supervisor july".data, "fees supervisor july 25".data, "policy fees supervisor july".data] },
  { key := "policy::first aid policy cc".data, language := "en".data,
    answer := "Read the First Aid Policy Cc.".data,
    url := "https://cheltenham-college.s3.eu-west-2.amazonaws.com/wp-content/uploads/2025/03/17141231/First-Aid-Policy-CC.pdf".data, label := "First Aid Policy Cc".data,
    variants := ["first aid  cc".data, "first aid cc".data, "policy first aid cc".data, "first aid policy cc".data] },
  { key := "policy::fourth and fifth form uniform list".data, language := "en".data,
    answer := "Read the Fourth and Fifth Form Uniform List.".data,
    url := "https://cheltenham-college.s3.eu-west-2.amazonaws.com/wp-content/uploads/2025/06/12134950/Fourth-and-Fifth-Form-Uniform-List.pdf".data, label := "Fourth and Fifth Form Uniform List".data,
    variants := ["fourth and fifth form uniform list".data, "policy fourth and fifth form uniform list".data] },
  { key := "policy::fv identity introduction".data, language := "en".data,
    answer := "Read the Fv Identity Introduction.".data,
    url := "https://cheltenham-college.s3.eu-west-2.amazonaws.com/wp-content/uploads/2022/02/26061507/FV-Identity-Introduction.pdf".data, label := "Fv Identity Introduction".data,
    variants := ["policy fv identity introduction".data, "fv identity introduction".data] },
  { key := "policy::gender pay gap statement 2024 policy".data, language := "en".data,
    answer := "Read the Gender Pay Gap Statement 2024 Policy.".data,
    url := "https://cheltenham-college.s3.eu-west-2.amazonaws.com/wp-content/uploads/2025/02/04120247/Gender-Pay-Gap-Statement-2024.pdf".data, label := "Gender Pay Gap Statement 2024 Policy".data,
    variants := ["gender pay gap statement policy".data, "policy gender pay gap statement".data, "gender pay gap statement".data, "gender pay gap statement 2024 policy".data] },
  { key := "policy::guardianship policy cc".data, language := "en".data,
    answer := "Read the Guardianship Policy Cc.".data,
    url := "https://cheltenham-college.s3.eu-west-2.amazonaws.com/wp-content/uploads/2025/08/29154156/Guardianship-Policy-CC.pdf".data, label := "Guardianship Policy Cc".data,
    variants := ["policy guardianship cc".data, "guardianship cc".data, "guardianship policy cc".data, "guardianship  cc".data] },
  { key := "policy::health centre handbook 2023 policy".data, language := "en".data,
    answer := "Read the Health Centre Handbook 2023 Policy.".data,
    url := "https://cheltenham-college.s3.eu-west-2.amazonaws.com/wp-content/uploads/2023/04/03131918/Health-Centre-Handbook-2023.pdf".data, label := "Health Centre Handbook 2023 Policy".data,
    variants := ["policy health centre handbook".data, "health centre handbook policy".data, "health centre handbook".data, "health centre handbook 2023 policy".data] },
  { key := "policy::health and safety cc policy".data, language := "en".data,
    answer := "Read the Health and Safety Cc Policy.".data,
    url := "https://cheltenham-college.s3.eu-west-2.amazonaws.com/wp-content/uploads/2025/05/15085800/Health-and-Safety-CC.pdf".data, label := "Health and Safety Cc Policy".data,
    variants := ["health and safety cc policy".data, "policy health and safety cc".data, "health and safety cc".data] },
  { key := "policy::house principles c".data, language := "en".data,
    answer := "Read the House Principles C.".data,
    url := "https://cheltenham-college.s3.eu-west-2.amazonaws.com/wp-content/uploads/2024/10/15115539/House-Principles-C.pdf".data, label := "House Principles C".data,
    variants := ["policy house principles c".data, "house principles c".data] },
  { key := "policy::humanities teacher maternity cover january 2026".data, language := "en".data,
    answer := "Read the Humanities Teacher Maternity Cover January 2026.".data,
    url := "https://cheltenham-college.s3.eu-west-2.amazonaws.com/wp-content/uploads/2025/09/02122633/Humanities-Teacher-Maternity-Cover-January-2026.pdf".data, label := "Humanities Teacher Maternity Cover January 2026".data,
    variants := ["policy humanities teacher maternity cover january".data, "humanities teacher maternity cover january".data, "humanities teacher maternity cover january 2026".data] },
  { key := "policy::independent guidance on criminal records disclosure policy".data, language := "en".data,
    answer := "Read the Independent Guidance on Criminal Records Disclosure Policy.".data,
    url := "https://cheltenham-college.s3.eu-west-2.amazonaws.com/wp-content/uploads/2025/07/03153056/Independent-Guidance-on-Criminal-Records-Disclosure.pdf".data, label := "Independent Guidance on Criminal Records Disclosure Policy".data,
    variants := ["independent guidance on criminal records disclosure policy".data, "independent guidance on criminal records disclosure".data, "policy independent guidance on criminal records disclosure".data] },
  { key := "policy::isi cheltenham prep 2023 digi".data, language := "en".data,
    answer := "Read the Isi Cheltenham Prep 2023 Digi.".data,
    url := "https://cheltenham-college.s3.eu-west-2.amazonaws.com/wp-content/uploads/2023/06/21135852/ISI-Cheltenham-Prep-2023-DIGI.pdf".data, label := "Isi Cheltenham Prep 2023 Digi".data,
    variants := ["policy isi cheltenham prep digi".data, "isi cheltenham prep 2023 digi".data, "isi cheltenham prep digi".data] },
  { key := "policy::isi intergrated inspection report cheltenham college 2016".data, language := "en".data,
    answer := "Read the Isi Intergrated Inspection Report Cheltenham College 2016.".data,
    url := "https://cheltenham-college.s3.eu-west-2.amazonaws.com/wp-content/uploads/2025/04/29132507/ISI-Intergrated-Inspection-Report-Cheltenham-College-2016.pdf".data, label := "Isi Intergrated Inspection Report Cheltenham College 2016".data,
    variants := ["isi intergrated inspection report cheltenham college".data, "isi intergrated inspection report cheltenham college 2016".data, "policy isi intergrated inspection report cheltenham college".data] },
  { key := "policy::isi intergrated inspection report cheltenham prep 2016".data, language := "en".data,
    answer := "Read the Isi Intergrated Inspection Report Cheltenham Prep 2016.".data,
    url := "https://cheltenham-college.s3.eu-west-2.amazonaws.com/wp-content/uploads/2025/04/29132511/ISI-Intergrated-Inspection-Report-Cheltenham-Prep-2016.pdf".data, label := "Isi Intergrated Inspection Report Cheltenham Prep 2016".data,
    variants := ["isi intergrated inspection report cheltenham prep".data, "policy isi intergrated inspection report cheltenham prep".data, "isi intergrated inspection report cheltenham prep 2016".data] },
  { key := "policy::isi regulatory compliance inspection cheltenham college february 2019".data, language := "en".data,
    answer := "Read the Isi Regulatory Compliance Inspection Cheltenham College February 2019.".data,
    url := "https://cheltenham-college.s3.eu-west-2.amazonaws.com/wp-content/uploads/2025/04/29132512/ISI-Regulatory-Compliance-Inspection-Cheltenham-College-February-2019.pdf".data, label := "Isi Regulatory Compliance Inspection Cheltenham College February 2019".data,
    variants := ["isi regulatory compliance inspection cheltenham college february".data, "policy isi regulatory compliance inspection cheltenham college february".data, "isi regulatory compliance inspection cheltenham college february 2019".data] },
  { key := "policy::isi regulatory compliance inspection cheltenham prep february 2019".data, language := "en".data,
    answer := "Read the Isi Regulatory Compliance Inspection Cheltenham Prep February 2019.".data,
    url := "https://cheltenham-college.s3.eu-west-2.amazonaws.com/wp-content/uploads/2025/04/29132513/ISI-Regulatory-Compliance-Inspection-Cheltenham-Prep-February-2019.pdf".data, label := "Isi Regulatory Compliance Inspection Cheltenham Prep February 2019".data,
    variants := ["isi regulatory compliance inspection cheltenham prep february".data, "policy isi regulatory compliance inspection cheltenham prep february".data, "isi regulatory compliance inspection cheltenham prep february 2019".data] },
  { key := "policy::job description".data, language := "en".data,
    answer := "Read the Job Description.".data,
    url := "https://cheltenham-college.s3.eu-west-2.amazonaws.com/wp-content/uploads/2025/09/11104802/Job-Description.pdf".data, label := "Job Description".data,
    variants := ["job description".data, "policy job description".data] },
  { key := "policy::job description 1".data, language := "en".data,
    answer := "Read the Job Description 1.".data,
    url := "https://cheltenham-college.s3.eu-west-2.amazonaws.com/wp-content/uploads/2025/09/11111128/Job-Description-1.pdf".data, label := "Job Description 1".data,
    variants := ["job description".data, "job description 1".data, "policy job description".data] },
  { key := "policy::key child protection and safeguarding cc policy".data, language := "en".data,
    answer := "Read the Key Child Protection and Safeguarding Cc Policy.".data,
    url := "https://cheltenham-college.s3.eu-west-2.amazonaws.com/wp-content/uploads/2025/09/09091013/Key-Child-Protection-and-Safeguarding-CC.pdf".data, label := "Key Child Protection and Safeguarding Cc Policy".data,
    variants := ["policy key child protection and safeguarding cc".data, "key child protection and safeguarding cc".data, "key child protection and safeguarding cc policy".data] }
]

/-- Chunk D of the static answer table (entries 82-107 of src/static_qa_config.py, in file order). -/
def STATIC_QAS_D : List QA := [
  { key := "policy::key prep behaviour policy p".data, language := "en".data,
    answer := "Read the Key Prep Behaviour Policy P.".data,
    url := "https://cheltenham-college.s3.eu-west-2.amazonaws.com/wp-content/uploads/2025/06/02152901/Key-Prep-Behaviour-Policy-P.pdf".data, label := "Key Prep Behaviour Policy P".data,
    variants := ["key prep behaviour p".data, "policy key prep behaviour p".data, "key prep behaviour policy p".data, "key prep behaviour  p".data] },
  { key := "policy::key pupil behaviour policy c".data, language := "en".data,
    answer := "Read the Key Pupil Behaviour Policy C.".data,
    url := "https://cheltenham-college.s3.eu-west-2.amazonaws.com/wp-content/uploads/2025/06/30122253/Key-Pupil-Behaviour-Policy-C.pdf".data, label := "Key Pupil Behaviour Policy C".data,
    variants := ["key pupil behaviour  c".data, "key pupil behaviour c".data, "key pupil behaviour policy c".data, "policy key pupil behaviour c".data] },
  { key := "policy::learning support and sen policy cc".data, language := "en".data,
    answer := "Read the Learning Support and Sen Policy Cc.".data,
    url := "https://cheltenham-college.s3.eu-west-2.amazonaws.com/wp-content/uploads/2025/07/24104217/Learning-Support-and-SEN-Policy-CC.pdf".data, label := "Learning Support and Sen Policy Cc".data,
    variants := ["learning support and sen  cc".data, "learning support and sen policy cc".data, "learning support and sen cc".data, "policy learning support and sen cc".data] },
  { key := "policy::modern slavery statement policy".data, language := "en".data,
    answer := "Read the Modern Slavery Statement Policy.".data,
    url := "https://www.cheltenhamcollege.org/wp-content/uploads/2025/02/Modern-Slavery-Statement.pdf".data, label := "Modern Slavery Statement Policy".data,
    variants := ["modern slavery statement".data, "modern slavery statement policy".data, "policy modern slavery statement".data] },
  { key := "policy::online safety policy cc".data, language := "en".data,
    answer := "Read the Online Safety Policy Cc.".data,
    url := "https://cheltenham-college.s3.eu-west-2.amazonaws.com/wp-content/uploads/2025/08/12130003/Online-Safety-Policy-CC.pdf".data, label := "Online Safety Policy Cc".data,
    variants := ["online safety  cc".data, "policy online safety cc".data, "online safety policy cc".data, "online safety cc".data] },
  { key := "policy::parents complaints policy cc".data, language := "en".data,
    answer := "Read the Parents Complaints Policy Cc.".data,
    url := "https://cheltenham-college.s3.eu-west-2.amazonaws.com/wp-content/uploads/2025/01/20165219/Parents-Complaints-Policy-CC.pdf".data, label := "Parents Complaints Policy Cc".data,
    variants := ["parents complaints  cc".data, "policy parents complaints cc".data, "parents complaints cc".data, "parents complaints policy cc".data] },
  { key := "policy::photography and film policy cc".data, language := "en".data,
    answer := "Read the Photography and Film Policy Cc.".data,
    url := "https://cheltenham-college.s3.eu-west-2.amazonaws.com/wp-content/uploads/2025/06/23121755/Photography-and-Film-Policy-CC.pdf".data, label := "Photography and Film Policy Cc".data,
    variants := ["photography and film policy cc".data, "policy photography and film cc".data, "photography and film  cc".data, "photography and film cc".data] },
  { key := "policy::policy".data, language := "en".data,
    answer := "Read the Policy.".data,
    url := "https://www.cheltenhamcollege.org/privacy-terms/".data, label := "Policy".data,
    variants := ["".data, "policy".data, "policy policy".data] },
  { key := "policy::privacy notice for pupils parents guardians and cheltonian society members cc policy".data, language := "en".data,
    answer := "Read the Privacy Notice for Pupils Parents Guardians and Cheltonian Society Members Cc Policy.".data,
    url := "https://cheltenham-college.s3.eu-west-2.amazonaws.com/wp-content/uploads/2024/10/08120719/Privacy-Notice-for-Pupils-Parents-Guardians-and-Cheltonian-Society-Members-CC.pdf".data, label := "Privacy Notice for Pupils Parents Guardians and Cheltonian Society Members Cc Policy".data,
    variants := ["privacy notice for pupils parents guardians and cheltonian society members cc policy".data, "policy privacy notice for pupils parents guardians and cheltonian society members cc".data, "privacy notice for pupils parents guardians and cheltonian society members cc".data] },
  { key := "policy::privacy notice for staff cc policy".data, language := "en".data,
    answer := "Read the Privacy Notice for Staff Cc Policy.".data,
    url := "https://cheltenham-college.s3.eu-west-2.amazonaws.com/wp-content/uploads/2025/07/03135123/Privacy-Notice-for-Staff-CC.pdf".data, label := "Privacy Notice for Staff Cc Policy".data,
    variants := ["privacy notice for staff cc policy".data, "policy privacy notice for staff cc".data, "privacy notice for staff cc".data] },
  { key := "policy::procedure for purchase of ticket cistg 22 23 v1 policy".data, language := "en".data,
    answer := "Read the Procedure for Purchase of Ticket Cistg 22 23 V1 Policy.".data,
    url := "https://cheltenham-college.s3.eu-west-2.amazonaws.com/wp-content/uploads/2022/09/26135132/Procedure-for-purchase-of-ticket-CISTG-22-23-V1-.pdf".data, label := "Procedure for Purchase of Ticket Cistg 22 23 V1 Policy".data,
    variants := ["policy procedure for purchase of ticket cistg v".data, "procedure for purchase of ticket cistg v policy".data, "procedure for purchase of ticket cistg v".data, "procedure for purchase of ticket cistg 22 23 v1 policy".data] },
  { key := "policy::recruitment policy cc".data, language := "en".data,
    answer := "Read the Recruitment Policy Cc.".data,
    url := "https://cheltenham-college.s3.eu-west-2.amazonaws.com/wp-content/uploads/2025/07/03135121/Recruitment-Policy-CC.pdf".data, label := "Recruitment Policy Cc".data,
    variants := ["policy recruitment cc".data, "recruitment policy cc".data, "recruitment cc".data, "recruitment  cc".data] },
  { key := "policy::recruitment social media checks policy v2 152".data, language := "en".data,
    answer := "Read the Recruitment Social Media Checks Policy V2 152.".data,
    url := "https://cheltenham-college.s3.eu-west-2.amazonaws.com/wp-content/uploads/2023/08/24075707/Recruitment-Social-Media-Checks-Policy-v2-152.pdf".data, label := "Recruitment Social Media Checks Policy V2 152".data,
    variants := ["recruitment social media checks  v".data, "policy recruitment social media checks v".data, "recruitment social media checks policy v2 152".data, "recruitment social media checks policy v".data, "recruitment social media checks v".data] },
  { key := "policy::relationships and sex education policy cc".data, language := "en".data,
    answer := "Read the Relationships and Sex Education Policy Cc.".data,
    url := "https://cheltenham-college.s3.eu-west-2.amazonaws.com/wp-content/uploads/2025/03/24090958/Relationships-and-Sex-Education-Policy-CC.pdf".data, label := "Relationships and Sex Education Policy Cc".data,
    variants := ["relationships and sex education cc".data, "policy relationships and sex education cc".data, "relationships and sex education policy cc".data, "relationships and sex education  cc".data] },
  { key := "policy::sixth form uniform list 2025".data, language := "en".data,
    answer := "Read the Sixth Form Uniform List 2025.".data,
    url := "https://cheltenham-college.s3.eu-west-2.amazonaws.com/wp-content/uploads/2025/07/08132948/Sixth-Form-Uniform-List-2025.pdf".data, label := "Sixth Form Uniform List 2025".data,
    variants := ["sixth form uniform list 2025".data, "policy sixth form uniform list".data, "sixth form uniform list".data] },
  { key := "policy::suspension and exclusion policy cc".data, language := "en".data,
    answer := "Read the Suspension and Exclusion Policy Cc.".data,
    url := "https://cheltenham-college.s3.eu-west-2.amazonaws.com/wp-content/uploads/2025/01/21101107/Suspension-and-Exclusion-Policy-CC.pdf".data, label := "Suspension and Exclusion Policy Cc".data,
    variants := ["suspension and exclusion  cc".data, "suspension and exclusion cc".data, "policy suspension and exclusion cc".data, "suspension and exclusion policy cc".data] },
  { key := "policy::sustainability strategy".data, language := "en".data,
    answer := "Read the Sustainability Strategy.".data,
    url := "https://cheltenham-college.s3.eu-west-2.amazonaws.com/wp-content/uploads/2024/08/22104533/Sustainability-Strategy-.pdf".data, label := "Sustainability Strategy".data,
    variants := ["policy sustainability strategy".data, "sustainability strategy".data] },
  { key := "policy::terms and conditions 2025 26".data, language := "en".data,
    answer := "Read the Terms and Conditions 2025 26.".data,
    url := "https://cheltenham-college.s3.eu-west-2.amazonaws.com/wp-content/uploads/2025/09/02141101/Terms-and-Conditions-2025-26.pdf".data, label := "Terms and Conditions 2025 26".data,
    variants := ["terms and conditions".data, "terms and conditions 2025 26".data, "policy terms and conditions".data] },
  { key := "policy::the muscat cheltonian 2021 22".data, language := "en".data,
    answer := "Read the The Muscat Cheltonian 2021 22.".data,
    url := "https://cheltenham-college.s3.eu-west-2.amazonaws.com/wp-content/uploads/2022/09/13103404/The-Muscat-Cheltonian-2021-22.pdf".data, label := "The Muscat Cheltonian 2021 22".data,
    variants := ["the muscat cheltonian".data, "the muscat cheltonian 2021 22".data, "policy the muscat cheltonian".data] },
  { key := "policy::third form uniform list".data, language := "en".data,
    answer := "Read the Third Form Uniform List.".data,
    url := "https://cheltenham-college.s3.eu-west-2.amazonaws.com/wp-content/uploads/2025/06/12134926/Third-Form-Uniform-List.pdf".data, label := "Third Form Uniform List".data,
    variants := ["third form uniform list".data, "policy third form uniform list".data] },
  { key := "policy::together community action and charity".data, language := "en".data,
    answer := "Read the Together Community Action and Charity.".data,
    url := "https://cheltenham-college.s3.eu-west-2.amazonaws.com/wp-content/uploads/2021/10/26062620/Together-Community-Action-and-Charity.pdf".data, label := "Together Community Action and Charity".data,
    variants := ["policy together community action and charity".data, "together community action and charity".data] },
  { key := "policy::together educational partnerships at cheltenham college".data, language := "en".data,
    answer := "Read the Together Educational Partnerships At Cheltenham College.".data,
    url := "https://cheltenham-college.s3.eu-west-2.amazonaws.com/wp-content/uploads/2021/10/26062621/Together-Educational-Partnerships-at-Cheltenham-College.pdf".data, label := "Together Educational Partnerships At Cheltenham College".data,
    variants := ["policy together educational partnerships at cheltenham college".data, "together educational partnerships at cheltenham college".data] },
  { key := "policy::valens menu autumn 2025".data, language := "en".data,
    answer := "Read the Valens Menu Autumn 2025.".data,
    url := "https://cheltenham-college.s3.eu-west-2.amazonaws.com/wp-content/uploads/2025/09/01144433/Valens-Menu-Autumn-2025.pdf".data, label := "Valens Menu Autumn 2025".data,
    variants := ["policy valens menu autumn".data, "valens menu autumn 2025".data, "valens menu autumn".data] },
  { key := "policy::valens spring menu".data, language := "en".data,
    answer := "Read the Valens Spring Menu.".data,
    url := "https://cheltenham-college.s3.eu-west-2.amazonaws.com/wp-content/uploads/2025/03/06161703/Valens-Spring-Menu.pdf".data, label := "Valens Spring Menu".data,
    variants := ["policy valens spring menu".data, "valens spring menu".data] },
  { key := "sport::cross country".data, language := "en".data,
    answer := "Find information about Cross Country at Cheltenham College.".data,
    url := "https://www.cheltenhamcollege.org/news/cheltenham-college-pupils-receive-excellent-gcse-results/".data, label := "Cross Country".data,
    variants := ["boys cross country".data, "cross country fixtures".data, "girls cross country".data, "cross country team".data, "cross country sport".data, "cross country".data, "cross country at cheltenham college".data] },
  { key := "sport::rugby".data, language := "en".data,
    answer := "Find information about Rugby at Cheltenham College.".data,
    url := "https://www.cheltenhamcollege.org/news/a-visit-from-the-canadian-womens-rugby-team/".data, label := "Rugby".data,
    variants := ["rugby fixtures".data, "boys rugby".data, "rugby sport".data, "rugby team".data, "girls rugby".data, "rugby at cheltenham college".data, "rugby".data] }
]

/-- The full static answer table of src/static_qa_config.py: all 107
entries in file order (split into chunks only to keep elaboration
linear), with the `L(...)` page-link lookups resolved exactly as the
generator resolves them. -/
def STATIC_QAS : List QA := STATIC_QAS_A ++ STATIC_QAS_B ++ STATIC_QAS_C ++ STATIC_QAS_D

/-- One recorded interaction (`ConversationTracker.add_interaction`); the
stored answer is truncated to 200 characters.  The timestamp field is
omitted: no claim mentions it. -/
structure Interaction where
  question : Str
  answer : Str
  topic : Option Str
deriving DecidableEq

/-- State of a `ConversationTracker`.  `topicsDiscussed` models the Python
set as an insertion-ordered duplicate-free list (CPython set iteration
order is unspecified; the theorems below never depend on the order, and
concrete states use at most one topic). -/
structure ConversationTracker where
  sessionId : Str
  familyId : Option Str
  interactions : List Interaction
  topicsDiscussed : List Str
  concerns : List Str
  highIntentSignals : Nat
  lastTopic : Option Str
  emotionalState : Str
deriving DecidableEq

/-- A freshly constructed `ConversationTracker(session_id, family_id)`. -/
def freshTracker (sid : Str) (fid : Option Str) : ConversationTracker :=
  { sessionId := sid, familyId := fid, interactions := [], topicsDiscussed := [],
    concerns := [], highIntentSignals := 0, lastTopic := none,
    emotionalState := "neutral".data }

/-- The keyword list of app.py line 172, verbatim — including the
capital I of "how do I". -/
def highIntentKeywords : List Str :=
  ["apply".data, "visit".data, "fee".data, "scholarship".data,
   "when can".data, "how do I".data, "register".data]

/-- The concern keyword list of app.py line 177. -/
def concernKeywords : List Str :=
  ["worried".data, "concern".data, "anxiety".data, "difficult".data,
   "struggle".data, "help".data, "support".data, "nervous".data]

/-- Set insertion (`topics_discussed.add`): append unless present. -/
def addTopic (topics : List Str) (t : Str) : List Str :=
  if topics.any (fun x => decide (x = t)) then topics else topics ++ [t]

/-- Model of `ConversationTracker.add_interaction`. -/
def addInteraction (tr : ConversationTracker) (question answer : Str)
    (topic : Option Str) : ConversationTracker :=
  let tr1 := { tr with interactions :=
    tr.interactions ++ [{ question := question, answer := answer.take 200, topic := topic }] }
  let tr2 := if pyTruthyS topic then
    { tr1 with topicsDiscussed := addTopic tr1.topicsDiscussed (topic.getD []),
               lastTopic := topic }
    else tr1
  let ql := lowerStr question
  let tr3 := if highIntentKeywords.any (fun kw => containsSub ql kw) then
    { tr2 with highIntentSignals := tr2.highIntentSignals + 1 } else tr2
  if concernKeywords.any (fun kw => containsSub ql kw) then
    { tr3 with concerns := tr3.concerns ++ [question],
               emotionalState := "concerned".data }
    else tr3

/-- Model of `ConversationTracker.should_offer_human_handoff`. -/
def shouldOfferHumanHandoff (tr : ConversationTracker) : Bool :=
  3 ≤ tr.highIntentSignals || 2 ≤ tr.concerns.length ||
  10 ≤ tr.interactions.length || decide (tr.emotionalState = "concerned".data)

/-- Python `repr` of a string as it appears inside `str(set)`: quote with
an apostrophe unless the string contains one (and no double quote), and
escape backslashes and the chosen quote.  Escaping of non-printable
characters is not modelled; the topics fed to the tracker are plain
text. -/
def pyReprStr (s : Str) : Str :=
  let apos := Char.ofNat 39
  let dquote := Char.ofNat 34
  let backslash := Char.ofNat 92
  let q := if s.any (fun c => decide (c = apos)) ∧ ¬ s.any (fun c => decide (c = dquote))
    then dquote else apos
  let body := s.foldr (fun c acc =>
    (if c = backslash ∨ c = q then [backslash, c] else [c]) ++ acc) []
  q :: body ++ [q]

/-- Python `str` of the `topics_discussed` set: `set()` when empty, else
the comma-separated `repr`s of the elements between braces, in the
modelled (insertion) order. -/
def pySetStr (topics : List Str) : Str :=
  if topics.isEmpty then "set()".data
  else (Char.ofNat 123 :: intercalateL ", ".data (topics.map pyReprStr)) ++ [Char.ofNat 125]

/-- The rotation pool of `ResponseEnhancer._add_acknowledgment`. -/
def acknowledgments : List Str :=
  ["That\x27s a great question.".data,
   "I\x27m glad you asked about that.".data,
   "Let me tell you about that.".data,
   "Excellent question.".data,
   "Many families ask about this.".data]

/-- Model of `ResponseEnhancer._add_acknowledgment`.  The second branch is
the verbatim source condition `context.last_topic in str(context.topics_discussed)`
— a substring test against the printed set.  A `None` last topic (which
would raise `TypeError` in Python, and is unreachable through the
pipeline once an interaction is recorded) is modelled as the empty
string. -/
def addAcknowledgment (tr : ConversationTracker) : Str :=
  if tr.interactions.length = 0 then
    "Hello! What a lovely question to start with.".data
  else if containsSub (pySetStr tr.topicsDiscussed) (tr.lastTopic.getD []) then
    "Following on from what we discussed...".data
  else if tr.emotionalState = "concerned".data then
    "I can hear this is important to you.".data
  else
    acknowledgments.getD (tr.interactions.length % acknowledgments.length) []

/-- The reassurance pool of `ResponseEnhancer`. -/
def reassurancePhrases : List Str :=
  ["That\x27s a very common concern, and I\x27m happy to address it...".data,
   "Many parents ask about this, and it\x27s important to get it right...".data,
   "I completely understand why you\x27d want to know about this...".data,
   "That\x27s an excellent question, and I\x27m glad you asked...".data]

/-- Family context as consumed by the enhancer (`family_ctx.get('child_name')`). -/
structure FamilyCtx where
  childName : Option Str
deriving DecidableEq

/-- The truthy child name of `if family_ctx and family_ctx.get('child_name')`. -/
def famChild (fctx : Option FamilyCtx) : Option Str :=
  match fctx with
  | none => none
  | some fc =>
    match fc.childName with
    | none => none
    | some nm => if nm.isEmpty then none else some nm

/-- Topic categorisation of `ResponseEnhancer._categorize_topic`. -/
def categorizeTopic (topic : Str) : Str :=
  let tl := lowerStr topic
  if ["fee".data, "cost".data, "price".data, "burs".data, "scholar".data].any
      (fun w => containsSub tl w) then "fees".data
  else if ["sport".data, "athletic".data, "team".data, "football".data, "netball".data].any
      (fun w => containsSub tl w) then "sports".data
  else if ["academic".data, "subject".data, "curriculum".data, "exam".data, "result".data].any
      (fun w => containsSub tl w) then "academic".data
  else if ["admission".data, "apply".data, "join".data, "entry".data, "register".data].any
      (fun w => containsSub tl w) then "admissions".data
  else if ["pastoral".data, "care".data, "wellbeing".data, "support".data, "help".data].any
      (fun w => containsSub tl w) then "pastoral".data
  else "general".data

/-- The follow-up-question pools of `ResponseEnhancer.__init__`, with the
default pool of `follow_up_questions.get(topic_key, [...])`. -/
def followUpPool (category : Str) : List Str :=
  if category = "fees".data then
    ["Are you also interested in our scholarship opportunities?".data,
     "Would you like to know about our payment plans?".data,
     "Shall I explain our bursary programme?".data]
  else if category = "sports".data then
    ["What sports does \x7bchild_name\x7d enjoy currently?".data,
     "Is \x7bchild_name\x7d interested in competitive teams or recreational activities?".data,
     "Would you like to know about our sports facilities?".data]
  else if category = "academic".data then
    ["What subjects does \x7bchild_name\x7d particularly enjoy?".data,
     "Are you interested in our academic enrichment programmes?".data,
     "Would you like to see our recent exam results?".data]
  else if category = "admissions".data then
    ["Which year group are you considering for entry?".data,
     "Would you like to book a personal tour?".data,
     "Shall I explain our application timeline?".data]
  else if category = "pastoral".data then
    ["Is there anything specific about \x7bchild_name\x7d\x27s needs I should know?".data,
     "Would you like to speak with our pastoral team?".data,
     "Are you interested in our wellbeing programmes?".data]
  else
    ["What else would you like to know?".data]

/-- Model of `ResponseEnhancer._get_follow_up_question`. -/
def getFollowUpQuestion (tr : ConversationTracker) (fctx : Option FamilyCtx) : Str :=
  if !pyTruthyS tr.lastTopic then
    "Is there anything specific you\x27d like to know about Cheltenham College?".data
  else
    let pool := followUpPool (categorizeTopic (tr.lastTopic.getD []))
    let q := pool.getD (tr.interactions.length % pool.length) []
    match famChild fctx with
    | some nm => replaceAll q "\x7bchild_name\x7d".data nm
    | none => replaceAll q "\x7bchild_name\x7d".data "your daughter".data

/-- Model of `ResponseEnhancer.enhance_for_voice`. -/
def enhanceForVoice (base : Str) (tr : ConversationTracker)
    (fctx : Option FamilyCtx) : Str :=
  let e1 := addAcknowledgment tr ++ " ".data ++ base
  let e2 := match famChild fctx with
    | some nm => replaceAll (replaceAll e1 "your child".data nm) "your daughter".data nm
    | none => e1
  let e3 := if tr.emotionalState = "concerned".data then
      reassurancePhrases.getD (tr.concerns.length % reassurancePhrases.length) []
        ++ " ".data ++ e2
    else e2
  let fu := getFollowUpQuestion tr fctx
  let e4 := if !fu.isEmpty then e3 ++ " ".data ++ fu else e3
  if shouldOfferHumanHandoff tr ∧ tr.interactions.length % 5 = 0 then
    e4 ++ " By the way, would you like me to arrange for someone from our admissions team to call you directly?".data
  else e4
/-- Worker for `charIndices`: positions of `c` in the remaining string,
offset by `i`. -/
def charIndicesAux (c : Char) : Str → Nat → List Nat
  | [], _ => []
  | d :: s, i =>
    if d = c then i :: charIndicesAux c s (i + 1) else charIndicesAux c s (i + 1)

/-- Ascending list of the positions of `c` in `b`
(`difflib.SequenceMatcher.__chain_b` builds `b2j` this way). -/
def charIndices (b : Str) (c : Char) : List Nat := charIndicesAux c b 0

/-- The `b2j` row for one character: the positions of `c` in `b`, except
that with the default `autojunk=True`, when `len(b) >= 200` a character
occurring more than `len(b) // 100 + 1` times is "popular" and removed.
The repository calls `SequenceMatcher(None, ...)`, so there is no junk
beyond this. -/
def b2jFor (b : Str) (c : Char) : List Nat :=
  let idxs := charIndices b c
  if 200 ≤ b.length ∧ b.length / 100 + 1 < idxs.length then [] else idxs

/-- Inner loop of `find_longest_match` over the `b2j` positions of the
current row character: `j2len[j] = j2len_prev.get(j-1, 0) + 1`, updating
the best block on a strictly larger run.  `old` is the previous row's
`j2len` (in Python, `j < blo` is skipped and `j >= bhi` breaks; since the
positions are ascending the two have the same effect as this filter). -/
def flmInner (old : Nat → Nat) (blo bhi i : Nat) :
    List Nat → ((Nat → Nat) × (Nat × Nat × Nat)) → ((Nat → Nat) × (Nat × Nat × Nat))
  | [], st => st
  | j :: js, (new, best) =>
    if blo ≤ j ∧ j < bhi then
      let k := (if j = 0 then 0 else old (j - 1)) + 1
      let new2 := fun x => if x = j then k else new x
      let best2 := if best.2.2 < k then (i + 1 - k, j + 1 - k, k) else best
      flmInner old blo bhi i js (new2, best2)
    else flmInner old blo bhi i js (new, best)

/-- Outer loop of `find_longest_match` over the rows `alo..ahi-1` of `a`;
each row starts a fresh `j2len` and reads the previous row's. -/
def flmRows (a b : Str) (blo bhi : Nat) :
    List Nat → ((Nat → Nat) × (Nat × Nat × Nat)) → ((Nat → Nat) × (Nat × Nat × Nat))
  | [], st => st
  | i :: is, (old, best) =>
    let st2 := flmInner old blo bhi i (b2jFor b (a.getD i (Char.ofNat 0))) ((fun _ => 0), best)
    flmRows a b blo bhi is st2

/-- Leftward extension of the best block over equal non-junk characters
(the `bjunk` set is empty because the caller passes `isjunk=None`, so the
junk test of the source is vacuous here).  The fuel is the starting `i`,
which bounds the number of steps. -/
def extendLeft (a b : Str) (alo blo : Nat) :
    Nat → Nat × Nat × Nat → Nat × Nat × Nat
  | 0, best => best
  | fuel + 1, (i, j, k) =>
    if alo < i ∧ blo < j ∧
        decide (a.getD (i - 1) (Char.ofNat 0) = b.getD (j - 1) (Char.ofNat 0)) then
      extendLeft a b alo blo fuel (i - 1, j - 1, k + 1)
    else (i, j, k)

/-- Rightward extension of the best block over equal non-junk characters;
the fuel `ahi` bounds the number of steps. -/
def extendRight (a b : Str) (ahi bhi : Nat) :
    Nat → Nat × Nat × Nat → Nat × Nat × Nat
  | 0, best => best
  | fuel + 1, (i, j, k) =>
    if i + k < ahi ∧ j + k < bhi ∧
        decide (a.getD (i + k) (Char.ofNat 0) = b.getD (j + k) (Char.ofNat 0)) then
      extendRight a b ahi bhi fuel (i, j, k + 1)
    else (i, j, k)

/-- Model of `difflib.SequenceMatcher(None, a, b).find_longest_match(alo,
ahi, blo, bhi)` : the dynamic-programming sweep, then the two non-junk
extension loops (the two junk extension loops of the source never fire
because `bjunk` is empty). -/
def findLongestMatch (a b : Str) (alo ahi blo bhi : Nat) : Nat × Nat × Nat :=
  let st := flmRows a b blo bhi (List.range' alo (ahi - alo)) ((fun _ => 0), (alo, blo, 0))
  let bestL := extendLeft a b alo blo st.2.1 st.2
  extendRight a b ahi bhi ahi bestL

/-- Fuelled recursion computing the total size of all matching blocks
(`get_matching_blocks` splits around the longest match and recurses on
both sides; only the total size feeds `ratio`).  Each recursive window is
strictly smaller, so fuel `a.length + b.length + 1` never runs out. -/
def matchesAux (a b : Str) : Nat → Nat → Nat → Nat → Nat → Nat
  | 0, _, _, _, _ => 0
  | fuel + 1, alo, ahi, blo, bhi =>
    let m := findLongestMatch a b alo ahi blo bhi
    if m.2.2 = 0 then 0
    else m.2.2 + matchesAux a b fuel alo m.1 blo m.2.1 +
      matchesAux a b fuel (m.1 + m.2.2) ahi (m.2.1 + m.2.2) bhi

/-- Total matched size `M` of `SequenceMatcher(None, a, b)`. -/
def matchesTotal (a b : Str) : Nat :=
  matchesAux a b (a.length + b.length + 1) 0 a.length 0 b.length

/-- Model of `SequenceMatcher.ratio()` : `2*M / (len(a)+len(b))`, and `1.0`
for two empty strings; the IEEE-754 division of the source is modelled as
exact rational division. -/
def ratioQ (a b : Str) : ℚ :=
  if a.length + b.length = 0 then 1
  else ((2 * matchesTotal a b : ℕ) : ℚ) / ((a.length + b.length : ℕ) : ℚ)

/-- The matching block `(besti, bestj, size)` lies inside the search
window `[alo, ahi) × [blo, bhi)` (stated with the closed endpoints that
also hold for a zero-sized block). -/
def windowBest (alo ahi blo bhi : Nat) (best : Nat × Nat × Nat) : Prop :=
  alo ≤ best.1 ∧ best.1 + best.2.2 ≤ ahi ∧ blo ≤ best.2.1 ∧ best.2.1 + best.2.2 ≤ bhi

/-- Inner fuzzy loop of `find_best_answer` over the variants of one entry:
`score = SequenceMatcher(None, q_lower, var.lower()).ratio()`, keeping the
strictly best score and its entry. -/
def fuzzyFoldVar (q : Str) (qa : QA) : List Str → (ℚ × Option QA) → (ℚ × Option QA)
  | [], st => st
  | v :: vs, (bs, bm) =>
    let score := ratioQ q (lowerStr v)
    fuzzyFoldVar q qa vs (if bs < score then (score, some qa) else (bs, bm))

/-- Outer fuzzy loop over the static entries, skipping entries of another
language. -/
def fuzzyScan (q lang : Str) : List QA → (ℚ × Option QA) → (ℚ × Option QA)
  | [], st => st
  | qa :: qas, st =>
    fuzzyScan q lang qas
      (if decide (qa.language = lang) then fuzzyFoldVar q qa (variantList qa) st else st)

/-- The fuzzy scan of tier 3 started from `best_score = 0`, `best_match =
None`. -/
def fuzzyBest (q lang : Str) : ℚ × Option QA := fuzzyScan q lang STATIC_QAS (0, none)

/-- Tier-3 acceptance: `if best_match and best_score > 0.8` (the float
literal `0.8` is modelled as the rational `4/5`). -/
def fuzzyAccepted (q lang : Str) : Option QA :=
  let st := fuzzyBest q lang
  if st.2.isSome ∧ (4 : ℚ)/5 < st.1 then st.2 else none

/-- Model of the `np.array(list_of_rows).ndim` relevant here: an empty
list gives a 1-dimensional empty array; equal-length rows give 2
dimensions. -/
def npNdim (emb : List (List ℚ)) : Nat :=
  if emb.isEmpty then 1
  else if emb.all (fun r => decide (r.length = (emb.headD []).length)) then 2 else 1

/-- Dot product of two rational vectors. -/
def dotQ (v w : List ℚ) : ℚ := ((v.zip w).map (fun p => p.1 * p.2)).sum

/-- Model of `vector_search` given the already computed query embedding
`qVec` (the source computes it through the external embedding provider
before the guards) and the loaded `EMBEDDINGS` matrix.  `sqrtFn` stands
for the square root inside `np.linalg.norm`, which is not rational; the
guard behaviour settled here never evaluates it.  Index order among tied
similarities is unspecified by `np.argsort`/`np.argpartition` and is
modelled by a stable sort. -/
def vectorSearch (sqrtFn : ℚ → ℚ) (qVec : List ℚ) (emb : List (List ℚ))
    (k : Nat) : List ℚ × List Nat :=
  if npNdim emb ≠ 2 ∨ emb.length = 0 then ([], [])
  else if (emb.headD []).length ≠ qVec.length then ([], [])
  else
    let eps : ℚ := 1 / 10000000000
    let normQ := sqrtFn (dotQ qVec qVec) + eps
    let sims := emb.map (fun row => dotQ row qVec / ((sqrtFn (dotQ row row) + eps) * normQ))
    let idxDesc := (sortStable (fun i j => decide (sims.getD i 0 ≤ sims.getD j 0))
      (List.range emb.length)).reverse
    if emb.length ≤ k then (sims, idxDesc) else (sims, idxDesc.take k)

/-- One event of the open-days cache. -/
structure OpenEvent where
  eventName : Str
  dateIso : Str
  dateHuman : Str
  bookingLink : Str
deriving DecidableEq

/-- One knowledge-base chunk as consumed by the RAG tier (`text` and
`url` of the metadata dict; `url` may be absent). -/
structure Passage where
  text : Str
  url : Option Str
deriving DecidableEq

/-- The external collaborators and loaded data consumed by
`find_best_answer`, collected as inputs of the model:
`events` is the open-days cache, `translateToEn` the result of
`translate(question, "en")` (`none` = the call raised), `translateOut`
the result of `translate(answer, language)`, `familyCtx` the result of
`fetch_family_context`, `qEmbed` the query embedding returned by
`embed_text`, `kbEmbeddings`/`kb` the loaded knowledge base, `sqrtFn` the
square root of `np.linalg.norm`, `complete` the chat-completion call,
`formatAnswer` the regex-based post-processing block of app.py lines
588-679 (from the raw completion to `improved_answer` — no claim inspects
its output, so it is kept abstract), and `uuid` the `str(uuid.uuid4())`
of a throwaway tracker. -/
structure Env where
  events : List OpenEvent
  translateToEn : Option Str
  translateOut : Str → Option Str
  familyCtx : Option FamilyCtx
  qEmbed : List ℚ
  kbEmbeddings : List (List ℚ)
  kb : List Passage
  sqrtFn : ℚ → ℚ
  complete : Str → Str
  formatAnswer : Str → Str → Str
  uuid : Str

/-- The result quintuple of `find_best_answer`. -/
structure FBA where
  answer : Str
  url : Option Str
  label : Option Str
  matchedKey : Option Str
  source : Str
deriving DecidableEq

/-- The session registry `conversation_memory`. -/
abbrev Memory := List (Str × ConversationTracker)

/-- The open-day keyword list of app.py line 487. -/
def openDayKeywords : List Str :=
  ["open day".data, "open morning".data, "open evening".data, "visit".data, "tour".data]

/-- Tier-1 trigger: any open-day keyword occurs in the lower-cased
question. -/
def tier1Fires (qLower : Str) : Bool :=
  openDayKeywords.any (fun kw => containsSub qLower kw)

/-- The admissions open-events page URL (`OPEN_DAYS_URL`). -/
def OPEN_DAYS_URL : Str :=
  "https://www.cheltenhamcollege.org/admissions/visit-us/open-events/".data

/-- Tier-1 answer construction: the chronologically next event (stable
sort by ISO date, first element), or the graceful fallback when the feed
is empty. -/
def openDaysAnswer (events : List OpenEvent) : FBA :=
  if events.isEmpty then
    { answer := "We don\x27t currently have any upcoming Open Days listed. You can check back soon on our [Admissions page](https://www.cheltenhamcollege.org/admissions/visit-us/open-events/).".data,
      url := some OPEN_DAYS_URL, label := some "Admissions".data,
      matchedKey := some "open_days".data, source := "open_days".data }
  else
    let ev := (sortStable (fun e f => lexLeStr e.dateIso f.dateIso) events).headD
      { eventName := [], dateIso := [], dateHuman := [], bookingLink := [] }
    { answer := "Our next ".data ++ ev.eventName ++ " is on ".data ++ ev.dateHuman
        ++ ". You can find more details and register here: ".data ++ ev.bookingLink,
      url := some ev.bookingLink, label := some "Open Days".data,
      matchedKey := some "open_days".data, source := "open_days".data }

/-- Tier-2 scan: the first entry whose language equals the request
language and whose lower-cased variant list contains the lower-cased
question. -/
def firstMatch (qLower lang : Str) : Option QA :=
  STATIC_QAS.find? (fun qa =>
    decide (qa.language = lang) &&
    (variantList qa).any (fun v => decide (lowerStr v = qLower)))

/-- Get-or-create of the session tracker: a truthy session id is looked
up in the registry (creating and storing a fresh tracker on first use); a
falsy one gets a throwaway tracker keyed by a fresh uuid. -/
def ensureTracker (sessionId familyId : Option Str) (uuid : Str) (mem : Memory) :
    ConversationTracker × Memory :=
  match sessionId with
  | some sid =>
    if sid.isEmpty then (freshTracker uuid familyId, mem)
    else
      match assocLookup mem sid with
      | some tr => (tr, mem)
      | none => (freshTracker sid familyId, mem ++ [(sid, freshTracker sid familyId)])
  | none => (freshTracker uuid familyId, mem)

/-- Write-back of the (in Python, in-place mutated) tracker: only a
tracker that lives in the registry is visible there afterwards. -/
def recordTracker (sessionId : Option Str) (mem : Memory) (tr : ConversationTracker) :
    Memory :=
  match sessionId with
  | some sid => if sid.isEmpty then mem else assocUpdate mem sid tr
  | none => mem

/-- The family context used for enhancement:
`fetch_family_context(family_id) if family_id else None`. -/
def familyForSession (familyId : Option Str) (env : Env) : Option FamilyCtx :=
  if pyTruthyS familyId then env.familyCtx else none

/-- Best-effort output translation of the RAG tier: on failure the
untranslated text is kept. -/
def pyTranslate (f : Str → Option Str) (s : Str) : Str :=
  match f s with
  | some t => t
  | none => s

/-- Topic detection of `detect_topic_from_question`. -/
def detectTopicFromQuestion (q : Str) : Option Str :=
  let ql := lowerStr q
  if ["fee".data, "cost".data, "price".data, "tuition".data, "charges".data].any
      (fun w => containsSub ql w) then some "fees".data
  else if ["admission".data, "apply".data, "join".data, "register".data].any
      (fun w => containsSub ql w) then some "admissions".data
  else if ["subject".data, "curriculum".data, "academic".data].any
      (fun w => containsSub ql w) then some "subjects".data
  else if ["boarding".data, "boarder".data, "house".data].any
      (fun w => containsSub ql w) then some "boarding".data
  else if ["scholarship".data, "bursary".data, "award".data].any
      (fun w => containsSub ql w) then some "scholarships".data
  else if ["open".data, "visit".data, "tour".data].any
      (fun w => containsSub ql w) then some "open_events".data
  else if ["sixth form".data, "a level".data, "upper college".data].any
      (fun w => containsSub ql w) then some "sixth_form".data
  else if ["sport".data, "athletics".data, "rugby".data, "netball".data].any
      (fun w => containsSub ql w) then some "sport".data
  else none

/-- The topic→URL table of `get_better_url_and_label`, with the
`meta_url or default` fallback (`or` treats an empty string as falsy). -/
def getBetterUrlAndLabel (topic : Option Str) (metaUrl : Option Str) : Str × Str :=
  let fallback := (match metaUrl with
    | some u => if u.isEmpty then "https://www.cheltenhamcollege.org/".data else u
    | none => "https://www.cheltenhamcollege.org/".data, "Visit website".data)
  match topic with
  | none => fallback
  | some t =>
    if t = "fees".data then
      ("https://www.cheltenhamcollege.org/admissions/fees/".data, "View fees page".data)
    else if t = "admissions".data then
      ("https://www.cheltenhamcollege.org/admissions/".data, "Visit admissions page".data)
    else if t = "subjects".data then
      ("https://www.cheltenhamcollege.org/college/curriculum/".data, "Explore curriculum".data)
    else if t = "boarding".data then
      ("https://www.cheltenhamcollege.org/college/boarding/".data, "Discover boarding life".data)
    else if t = "scholarships".data then
      ("https://www.cheltenhamcollege.org/admissions/scholarships-awards/".data, "View scholarships".data)
    else if t = "open_events".data then
      ("https://www.cheltenhamcollege.org/admissions/visit-us/open-events/".data, "Book open event".data)
    else if t = "sixth_form".data then
      ("https://www.cheltenhamcollege.org/college/upper-college-16-18/".data, "Learn about Sixth Form".data)
    else if t = "sport".data then
      ("https://www.cheltenhamcollege.org/college/co-curricular/sport/".data, "Explore sports".data)
    else fallback

/-- The fixed tier-5 no-match response. -/
def noMatchResponse : Str :=
  "I\x27m sorry, I don\x27t have that specific information to hand. Would you like me to connect you with our admissions team who can help?".data

/-- The translated-to-English match text of app.py lines 475-482: on a
non-English request the question is translated to English, stripped and
lower-cased (falling back to the original on translator failure).  The
source computes this value and then never reads it — tier 2 matches on
`q_lower` — so `findBestAnswer` binds it to a dead variable exactly as
the source does. -/
def qForMatch (language : Str) (translated : Option Str) (qLower : Str) : Str :=
  if language ≠ "en".data then
    match translated with
    | some t => lowerStr (strip t)
    | none => qLower
  else qLower

/-- Model of `find_best_answer(question, language, session_id, family_id)`
 : the five tiers in order, with the tracker updates and (for truthy
session ids) the voice enhancement, returning the result quintuple and
the updated session registry. -/
def findBestAnswer (question language : Str) (sessionId familyId : Option Str)
    (env : Env) (mem : Memory) : FBA × Memory :=
  let qLower := lowerStr (strip question)
  let _qForMatch : Str := qForMatch language env.translateToEn qLower
  if tier1Fires qLower then (openDaysAnswer env.events, mem)
  else
    let tm := ensureTracker sessionId familyId env.uuid mem
    let tracker := tm.1
    let mem1 := tm.2
    match firstMatch qLower language with
    | some qa =>
      let tr2 := addInteraction tracker question qa.answer (some qa.key)
      let mem2 := recordTracker sessionId mem1 tr2
      let ans := if pyTruthyS sessionId then
        enhanceForVoice qa.answer tr2 (familyForSession familyId env) else qa.answer
      ({ answer := ans, url := some qa.url, label := some qa.label,
         matchedKey := some qa.key, source := "static".data }, mem2)
    | none =>
      match fuzzyAccepted qLower language with
      | some qa =>
        let tr2 := addInteraction tracker question qa.answer (some qa.key)
        let mem2 := recordTracker sessionId mem1 tr2
        let ans := if pyTruthyS sessionId then
          enhanceForVoice qa.answer tr2 (familyForSession familyId env) else qa.answer
        ({ answer := ans, url := some qa.url, label := some qa.label,
           matchedKey := some qa.key, source := "fuzzy".data }, mem2)
      | none =>
        let sr := vectorSearch env.sqrtFn env.qEmbed env.kbEmbeddings 10
        let idxs := sr.2
        if 0 < idxs.length then
          let contexts := (idxs.take 10).map
            (fun i => (env.kb.getD i { text := [], url := none }).text)
          let convCtx := if 0 < tracker.interactions.length then
            "Previous context: ".data ++ intercalateL " | ".data
              ((tracker.interactions.drop (tracker.interactions.length - 3)).map
                (fun it => "Q: ".data ++ it.question.take 50))
            else []
          let prompt := (if !convCtx.isEmpty then convCtx ++ "\n\n".data else [])
            ++ "Use ONLY the passages below to answer.\n\n".data
            ++ intercalateL "\n---\n".data contexts
            ++ "\n\nQuestion: ".data ++ question ++ "\nAnswer:".data
          let raw := env.complete prompt
          let improved := env.formatAnswer question raw
          let meta := env.kb.getD (idxs.headD 0) { text := [], url := none }
          let bul := getBetterUrlAndLabel (detectTopicFromQuestion question) meta.url
          let tr2 := addInteraction tracker question improved (some "general".data)
          let mem2 := recordTracker sessionId mem1 tr2
          let ans1 := if pyTruthyS sessionId then
            enhanceForVoice improved tr2 (familyForSession familyId env) else improved
          let ans2 := if language ≠ "en".data then pyTranslate env.translateOut ans1 else ans1
          ({ answer := ans2, url := some bul.1, label := some bul.2,
             matchedKey := none, source := "rag".data }, mem2)
        else
          if pyTruthyS sessionId then
            let tr2 := addInteraction tracker question noMatchResponse (some "unknown".data)
            ({ answer := noMatchResponse, url := none, label := none,
               matchedKey := none, source := "none".data }, recordTracker sessionId mem1 tr2)
          else
            ({ answer := noMatchResponse, url := none, label := none,
               matchedKey := none, source := "none".data }, mem1)
/-- The pipeline of `find_best_answer` with the Response-Enhancer step
removed, written for the frame claim about `session_id=None` calls: it
follows the claim wording "the returned answer is never passed through
the Response Enhancer" and is proved equal to `findBestAnswer` at
`sessionId = none`.  The throwaway tracker still exists (its empty
interaction list feeds the RAG prompt), but no registry write and no
enhancement happen. -/
def resolveWithoutEnhancer (question language : Str) (familyId : Option Str)
    (env : Env) : FBA :=
  let qLower := lowerStr (strip question)
  if tier1Fires qLower then openDaysAnswer env.events
  else
    let tracker := freshTracker env.uuid familyId
    match firstMatch qLower language with
    | some qa =>
      ({ answer := qa.answer, url := some qa.url, label := some qa.label,
         matchedKey := some qa.key, source := "static".data } : FBA)
    | none =>
      match fuzzyAccepted qLower language with
      | some qa =>
        ({ answer := qa.answer, url := some qa.url, label := some qa.label,
           matchedKey := some qa.key, source := "fuzzy".data } : FBA)
      | none =>
        let sr := vectorSearch env.sqrtFn env.qEmbed env.kbEmbeddings 10
        let idxs := sr.2
        if 0 < idxs.length then
          let contexts := (idxs.take 10).map
            (fun i => (env.kb.getD i { text := [], url := none }).text)
          let convCtx := if 0 < tracker.interactions.length then
            "Previous context: ".data ++ intercalateL " | ".data
              ((tracker.interactions.drop (tracker.interactions.length - 3)).map
                (fun it => "Q: ".data ++ it.question.take 50))
            else []
          let prompt := (if !convCtx.isEmpty then convCtx ++ "\n\n".data else [])
            ++ "Use ONLY the passages below to answer.\n\n".data
            ++ intercalateL "\n---\n".data contexts
            ++ "\n\nQuestion: ".data ++ question ++ "\nAnswer:".data
          let raw := env.complete prompt
          let improved := env.formatAnswer question raw
          let meta := env.kb.getD (idxs.headD 0) { text := [], url := none }
          let bul := getBetterUrlAndLabel (detectTopicFromQuestion question) meta.url
          let ans2 := if language ≠ "en".data then pyTranslate env.translateOut improved
            else improved
          ({ answer := ans2, url := some bul.1, label := some bul.2,
             matchedKey := none, source := "rag".data } : FBA)
        else
          ({ answer := noMatchResponse, url := none, label := none,
             matchedKey := none, source := "none".data } : FBA)

/-- Number of interactions recorded for a session id in the registry (0
when the session is unknown). -/
def trackerCount (mem : Memory) (sid : Str) : Nat :=
  ((assocLookup mem sid).map (fun tr => tr.interactions.length)).getD 0

/-- A concrete environment for closed witnesses and counterexamples: an
empty open-days feed, failing translators, an empty knowledge store, and
trivial collaborators. -/
def env0 : Env :=
  { events := [], translateToEn := none, translateOut := fun _ => none,
    familyCtx := none, qEmbed := [], kbEmbeddings := [], kb := [],
    sqrtFn := fun _ => 0, complete := fun _ => [], formatAnswer := fun _ _ => [],
    uuid := "u".data }

/-- The first entry of the static table, used in closed witnesses. -/
def qaFirst : QA :=
  STATIC_QAS.headD ⟨[], [], [], [], [], []⟩

/-- The per-entry best fuzzy score, written from the spec wording of the
fuzzy tier ("the maximum similarity ratio, taken over every variant"):
the maximum of `ratio(q_lower, var.lower())` over the variant list. -/
def entryMax (q : Str) (qa : QA) : ℚ :=
  ((variantList qa).map (fun v => ratioQ q (lowerStr v))).foldl max 0

/-- One step of the fuzzy fold, on (entry, score) pairs: keep the pair on
a strictly larger score. -/
def c5Step (st : ℚ × Option QA) (p : QA × ℚ) : ℚ × Option QA :=
  if st.1 < p.2 then (p.2, some p.1) else st

/-- The (entry, score) pairs visited by the fuzzy tier, in traversal
order, for the entries of `F`. -/
def scorePairs (q : Str) (F : List QA) : List (QA × ℚ) :=
  F.flatMap (fun qa => (variantList qa).map (fun v => (qa, ratioQ q (lowerStr v))))

/-- The spec-side maximum fuzzy score over every variant of every
same-language entry. -/
def fuzzyMaxAll (q lang : Str) : ℚ :=
  ((STATIC_QAS.filter (fun qa => decide (qa.language = lang))).map
    (fun qa => entryMax q qa)).foldl max 0
/-- A concrete tracker state for the acknowledgment claims: one recorded
interaction, `last_topic = "fee"`, `topics_discussed = {"fees"}`, neutral
emotional state. -/
def trC8 : ConversationTracker :=
  { sessionId := "s".data, familyId := none,
    interactions := [{ question := "q".data, answer := "a".data, topic := some "fees".data }],
    topicsDiscussed := ["fees".data], concerns := [], highIntentSignals := 0,
    lastTopic := some "fee".data, emotionalState := "neutral".data }
/-- Memory state used in the C1 counterexample: the session "s" is known
with an empty interaction history. -/
def memC1 : Memory := [("s".data, freshTracker "s".data none)]

/-- Claim C7: `vector_search` returns the pair of empty arrays and raises
no exception whenever the knowledge-store embedding matrix is empty or
not two-dimensional, or the query embedding dimensionality differs from
the store dimensionality.  (The model is a total function, so the
guarded branches returning `([], [])` are the whole behaviour there.) -/
theorem C7_vector_search_guards (sqrtFn : ℚ → ℚ) (qVec : List ℚ)
    (emb : List (List ℚ)) (k : Nat)
    (h : npNdim emb ≠ 2 ∨ emb.length = 0 ∨ (emb.headD []).length ≠ qVec.length) :
    vectorSearch sqrtFn qVec emb k = ([], []) := by
  unfold vectorSearch
  rcases h with h | h | h
  · rw [if_pos (Or.inl h)]
  · rw [if_pos (Or.inr h)]
  · by_cases h1 : npNdim emb ≠ 2 ∨ emb.length = 0
    · rw [if_pos h1]
    · rw [if_neg h1, if_pos h]

/-- Witness for C7 at the empty knowledge store. -/
theorem C7_vector_search_guards_witness :
    vectorSearch (fun q => q) [] ([] : List (List ℚ)) 10 = ([], []) :=
  C7_vector_search_guards (fun q => q) [] [] 10 (Or.inl (by decide))

/-- Claim C4 (code bug): the lower-cased question "how do i enrol"
contains the keyword phrase "how do i" and none of the other high-intent
keywords, yet `add_interaction` leaves `high_intent_signals` unchanged,
because the keyword list holds "how do I" with a capital I, which can
never occur in a lower-cased string. -/
theorem C4_high_intent_eval :
    containsSub (lowerStr "how do i enrol".data) "how do i".data = true ∧
    (addInteraction (freshTracker "s".data none) "how do i enrol".data
      "answer".data none).highIntentSignals
      = (freshTracker "s".data none).highIntentSignals := by
  decide

/-- Claim C3 (code bug): the result of `find_best_answer` does not depend
on the outcome of the `translate(question, "en")` call — the computed
`q_for_match` is dead, so tier-2 matching always compares the original
lower-cased question. -/
theorem C3_translation_unused (q lang : Str) (sid fid : Option Str) (env : Env)
    (mem : Memory) (x : Option Str) :
    findBestAnswer q lang sid fid { env with translateToEn := x } mem
      = findBestAnswer q lang sid fid env mem := rfl

/-- Claim C8 (counterexample): with one prior interaction, `last_topic =
"fee"` and `topics_discussed = {"fees"}`, the acknowledgment "Following
on from what we discussed..." is produced although "fee" is not a member
of `topics_discussed` — the source tests substring containment in
`str(topics_discussed)`, not membership. -/
theorem C8_counterexample :
    1 ≤ trC8.interactions.length ∧
    addAcknowledgment trC8 = "Following on from what we discussed...".data ∧
    ¬ ("fee".data ∈ trC8.topicsDiscussed) := by decide

/-- Claim C8 (amended): for a tracker with at least one prior interaction
and a string last topic, the "Following on" acknowledgment is produced
exactly when the last topic occurs as a substring of the string rendering
of `topics_discussed`; otherwise the concerned state yields the
empathetic phrase, and otherwise the pool entry indexed by the
interaction count modulo the pool size. -/
theorem C8_amended (tr : ConversationTracker) (t : Str)
    (h1 : 1 ≤ tr.interactions.length) (h2 : tr.lastTopic = some t) :
    (addAcknowledgment tr = "Following on from what we discussed...".data ↔
      containsSub (pySetStr tr.topicsDiscussed) t = true) ∧
    (containsSub (pySetStr tr.topicsDiscussed) t = false →
      (tr.emotionalState = "concerned".data →
        addAcknowledgment tr = "I can hear this is important to you.".data) ∧
      (tr.emotionalState ≠ "concerned".data →
        addAcknowledgment tr
          = acknowledgments.getD (tr.interactions.length % acknowledgments.length) [])) := by
  have hlen : ¬ tr.interactions.length = 0 := by omega
  unfold addAcknowledgment
  rw [if_neg hlen, h2]
  simp only [Option.getD_some]
  by_cases hsub : containsSub (pySetStr tr.topicsDiscussed) t = true
  · rw [if_pos hsub]
    refine ⟨by simp [hsub], ?_⟩
    intro hfalse
    rw [hsub] at hfalse
    exact absurd hfalse (by decide)
  · have hsub' : containsSub (pySetStr tr.topicsDiscussed) t = false := by
      revert hsub
      cases containsSub (pySetStr tr.topicsDiscussed) t <;> simp
    rw [if_neg (by simp [hsub'])]
    constructor
    · constructor
      · intro heq
        exfalso
        by_cases hc : tr.emotionalState = "concerned".data
        · rw [if_pos hc] at heq
          exact absurd heq (by decide)
        · rw [if_neg hc] at heq
          have h5 : tr.interactions.length % acknowledgments.length < 5 := by
            have : acknowledgments.length = 5 := by decide
            rw [this]
            omega
          have hall : ∀ m, m < 5 →
              acknowledgments.getD m [] ≠ "Following on from what we discussed...".data := by
            decide
          exact hall _ h5 heq
      · intro hcontra
        rw [hsub'] at hcontra
        exact absurd hcontra (by decide)
    · intro _
      constructor
      · intro hc
        rw [if_pos hc]
      · intro hc
        rw [if_neg hc]

/-- Witness for the amended C8 at the concrete tracker `trC8`. -/
theorem C8_amended_witness :
    (addAcknowledgment trC8 = "Following on from what we discussed...".data ↔
      containsSub (pySetStr trC8.topicsDiscussed) "fee".data = true) ∧
    (containsSub (pySetStr trC8.topicsDiscussed) "fee".data = false →
      (trC8.emotionalState = "concerned".data →
        addAcknowledgment trC8 = "I can hear this is important to you.".data) ∧
      (trC8.emotionalState ≠ "concerned".data →
        addAcknowledgment trC8
          = acknowledgments.getD (trC8.interactions.length % acknowledgments.length) [])) :=
  C8_amended trC8 "fee".data (by decide) rfl

theorem addInteraction_length (tr : ConversationTracker) (q a : Str) (t : Option Str) :
    (addInteraction tr q a t).interactions.length = tr.interactions.length + 1 := by
  simp only [addInteraction]
  split_ifs <;> simp

theorem openDaysAnswer_source (evs : List OpenEvent) :
    (openDaysAnswer evs).source = "open_days".data := by
  unfold openDaysAnswer
  split <;> rfl

theorem pyTruthyS_some_of_ne (sid : Str) (h : sid ≠ []) : pyTruthyS (some sid) = true := by
  cases sid with
  | nil => exact absurd rfl h
  | cons c s => rfl

theorem bool_eq_false_of_ne_true {b : Bool} (h : ¬ b = true) : b = false := by
  revert h
  cases b <;> simp

theorem findBestAnswer_tier1 (question language : Str) (sessionId familyId : Option Str)
    (env : Env) (mem : Memory)
    (hq : tier1Fires (lowerStr (strip question)) = true) :
    findBestAnswer question language sessionId familyId env mem
      = (openDaysAnswer env.events, mem) := by
  simp only [findBestAnswer, hq, if_true]

theorem findBestAnswer_static (question language : Str) (sessionId familyId : Option Str)
    (env : Env) (mem : Memory) (qa : QA)
    (hq : tier1Fires (lowerStr (strip question)) = false)
    (hf : firstMatch (lowerStr (strip question)) language = some qa) :
    findBestAnswer question language sessionId familyId env mem
      = (let tm := ensureTracker sessionId familyId env.uuid mem
         let tr2 := addInteraction tm.1 question qa.answer (some qa.key)
         ({ answer := if pyTruthyS sessionId then
              enhanceForVoice qa.answer tr2 (familyForSession familyId env) else qa.answer,
            url := some qa.url, label := some qa.label, matchedKey := some qa.key,
            source := "static".data },
          recordTracker sessionId tm.2 tr2)) := by
  simp only [findBestAnswer, hq, Bool.false_eq_true, if_false, hf]

theorem findBestAnswer_fuzzy (question language : Str) (sessionId familyId : Option Str)
    (env : Env) (mem : Memory) (qa : QA)
    (hq : tier1Fires (lowerStr (strip question)) = false)
    (hf : firstMatch (lowerStr (strip question)) language = none)
    (hz : fuzzyAccepted (lowerStr (strip question)) language = some qa) :
    findBestAnswer question language sessionId familyId env mem
      = (let tm := ensureTracker sessionId familyId env.uuid mem
         let tr2 := addInteraction tm.1 question qa.answer (some qa.key)
         ({ answer := if pyTruthyS sessionId then
              enhanceForVoice qa.answer tr2 (familyForSession familyId env) else qa.answer,
            url := some qa.url, label := some qa.label, matchedKey := some qa.key,
            source := "fuzzy".data },
          recordTracker sessionId tm.2 tr2)) := by
  simp only [findBestAnswer, hq, Bool.false_eq_true, if_false, hf, hz]

theorem findBestAnswer_rag (question language : Str) (sessionId familyId : Option Str)
    (env : Env) (mem : Memory)
    (hq : tier1Fires (lowerStr (strip question)) = false)
    (hf : firstMatch (lowerStr (strip question)) language = none)
    (hz : fuzzyAccepted (lowerStr (strip question)) language = none)
    (hi : 0 < (vectorSearch env.sqrtFn env.qEmbed env.kbEmbeddings 10).2.length) :
    findBestAnswer question language sessionId familyId env mem
      = (let tm := ensureTracker sessionId familyId env.uuid mem
         let idxs := (vectorSearch env.sqrtFn env.qEmbed env.kbEmbeddings 10).2
         let contexts := (idxs.take 10).map
           (fun i => (env.kb.getD i { text := [], url := none }).text)
         let convCtx := if 0 < tm.1.interactions.length then
           "Previous context: ".data ++ intercalateL " | ".data
             ((tm.1.interactions.drop (tm.1.interactions.length - 3)).map
               (fun it => "Q: ".data ++ it.question.take 50))
           else []
         let prompt := (if !convCtx.isEmpty then convCtx ++ "\n\n".data else [])
           ++ "Use ONLY the passages below to answer.\n\n".data
           ++ intercalateL "\n---\n".data contexts
           ++ "\n\nQuestion: ".data ++ question ++ "\nAnswer:".data
         let improved := env.formatAnswer question (env.complete prompt)
         let bul := getBetterUrlAndLabel (detectTopicFromQuestion question)
           (env.kb.getD (idxs.headD 0) { text := [], url := none }).url
         let tr2 := addInteraction tm.1 question improved (some "general".data)
         let ans1 := if pyTruthyS sessionId then
           enhanceForVoice improved tr2 (familyForSession familyId env) else improved
         ({ answer := if language ≠ "en".data then pyTranslate env.translateOut ans1 else ans1,
            url := some bul.1, label := some bul.2, matchedKey := none,
            source := "rag".data },
          recordTracker sessionId tm.2 tr2)) := by
  simp only [findBestAnswer, hq, Bool.false_eq_true, if_false, hf, hz, hi, if_true]

theorem findBestAnswer_none_session (question language : Str) (sessionId familyId : Option Str)
    (env : Env) (mem : Memory)
    (hq : tier1Fires (lowerStr (strip question)) = false)
    (hf : firstMatch (lowerStr (strip question)) language = none)
    (hz : fuzzyAccepted (lowerStr (strip question)) language = none)
    (hi : ¬ 0 < (vectorSearch env.sqrtFn env.qEmbed env.kbEmbeddings 10).2.length)
    (hs : pyTruthyS sessionId = true) :
    findBestAnswer question language sessionId familyId env mem
      = (let tm := ensureTracker sessionId familyId env.uuid mem
         let tr2 := addInteraction tm.1 question noMatchResponse (some "unknown".data)
         ({ answer := noMatchResponse, url := none, label := none,
            matchedKey := none, source := "none".data },
          recordTracker sessionId tm.2 tr2)) := by
  simp only [findBestAnswer, hq, Bool.false_eq_true, if_false, hf, hz, hi, hs, if_true]

theorem assocLookup_append_right (mem : Memory) (sid : Str) (v : ConversationTracker)
    (h : assocLookup mem sid = none) :
    assocLookup (mem ++ [(sid, v)]) sid = some v := by
  unfold assocLookup at *
  rw [List.find?_append]
  have hf : mem.find? (fun p => decide (p.1 = sid)) = none := by
    rcases hf : mem.find? (fun p => decide (p.1 = sid)) with _ | p
    · exact hf
    · rw [hf] at h
      simp at h
  rw [hf, List.find?_cons_of_pos _ (by simp)]
  rfl

theorem assocLookup_update (mem : Memory) (sid : Str) (v w : ConversationTracker)
    (h : assocLookup mem sid = some w) :
    assocLookup (assocUpdate mem sid v) sid = some v := by
  induction mem with
  | nil => simp [assocLookup] at h
  | cons p rest ih =>
    unfold assocLookup at h ⊢
    unfold assocUpdate
    simp only [List.map_cons]
    by_cases hp : p.1 = sid
    · rw [if_pos hp, List.find?_cons_of_pos _ (by simp)]
      rfl
    · rw [if_neg hp, List.find?_cons_of_neg _ (by simp [hp])]
      rw [List.find?_cons_of_neg _ (by simp [hp])] at h
      exact ih h

theorem ensureTracker_some (sid : Str) (fid : Option Str) (u : Str) (mem : Memory)
    (h : sid ≠ []) :
    assocLookup (ensureTracker (some sid) fid u mem).2 sid
        = some (ensureTracker (some sid) fid u mem).1 ∧
    (ensureTracker (some sid) fid u mem).1.interactions.length = trackerCount mem sid := by
  have hne : sid.isEmpty = false := by
    cases sid with
    | nil => exact absurd rfl h
    | cons c s => rfl
  simp only [ensureTracker, hne, Bool.false_eq_true, if_false]
  rcases hl : assocLookup mem sid with _ | tr
  · refine ⟨assocLookup_append_right mem sid _ hl, ?_⟩
    simp [freshTracker, trackerCount, hl]
  · exact ⟨hl, by simp [trackerCount, hl]⟩

theorem trackerCount_record (sid : Str) (mem1 : Memory) (tr tr2 : ConversationTracker)
    (h : sid ≠ []) (hl : assocLookup mem1 sid = some tr) :
    trackerCount (recordTracker (some sid) mem1 tr2) sid = tr2.interactions.length := by
  have hne : sid.isEmpty = false := by
    cases sid with
    | nil => exact absurd rfl h
    | cons c s => rfl
  simp only [recordTracker, hne, Bool.false_eq_true, if_false]
  rw [trackerCount, assocLookup_update mem1 sid tr2 tr hl]
  rfl

/-- Claim C1 (amended): with a non-empty session id, the tier-1 open-days
shortcut returns before the tracker is even resolved and leaves the
registry untouched, while every other tier (exact static, fuzzy, RAG and
the no-match response) records exactly one interaction on the resolved
session tracker before returning. -/
theorem C1_amended (q lang sid : Str) (fid : Option Str) (env : Env) (mem : Memory)
    (h : sid ≠ []) :
    ((findBestAnswer q lang (some sid) fid env mem).1.source = "open_days".data →
      (findBestAnswer q lang (some sid) fid env mem).2 = mem) ∧
    ((findBestAnswer q lang (some sid) fid env mem).1.source ≠ "open_days".data →
      trackerCount (findBestAnswer q lang (some sid) fid env mem).2 sid
        = trackerCount mem sid + 1) := by
  obtain ⟨hlook, hcount⟩ := ensureTracker_some sid fid env.uuid mem h
  by_cases h1 : tier1Fires (lowerStr (strip q)) = true
  · rw [findBestAnswer_tier1 q lang (some sid) fid env mem h1]
    exact ⟨fun _ => rfl, fun hne => absurd (openDaysAnswer_source env.events) hne⟩
  · have h1' := bool_eq_false_of_ne_true h1
    rcases hf : firstMatch (lowerStr (strip q)) lang with _ | qa
    · rcases hz : fuzzyAccepted (lowerStr (strip q)) lang with _ | qa
      · by_cases hi : 0 < (vectorSearch env.sqrtFn env.qEmbed env.kbEmbeddings 10).2.length
        · constructor
          · intro hc
            rw [findBestAnswer_rag q lang (some sid) fid env mem h1' hf hz hi] at hc
            simp only [] at hc
            exact absurd hc (by decide)
          · intro _
            rw [findBestAnswer_rag q lang (some sid) fid env mem h1' hf hz hi]
            simp only []
            rw [trackerCount_record sid _ _ _ h hlook, addInteraction_length, hcount]
        · constructor
          · intro hc
            rw [findBestAnswer_none_session q lang (some sid) fid env mem h1' hf hz hi
              (pyTruthyS_some_of_ne sid h)] at hc
            simp only [] at hc
            exact absurd hc (by decide)
          · intro _
            rw [findBestAnswer_none_session q lang (some sid) fid env mem h1' hf hz hi
              (pyTruthyS_some_of_ne sid h)]
            simp only []
            rw [trackerCount_record sid _ _ _ h hlook, addInteraction_length, hcount]
      · constructor
        · intro hc
          rw [findBestAnswer_fuzzy q lang (some sid) fid env mem qa h1' hf hz] at hc
          simp only [] at hc
          exact absurd hc (by decide)
        · intro _
          rw [findBestAnswer_fuzzy q lang (some sid) fid env mem qa h1' hf hz]
          simp only []
          rw [trackerCount_record sid _ _ _ h hlook, addInteraction_length, hcount]
    · constructor
      · intro hc
        rw [findBestAnswer_static q lang (some sid) fid env mem qa h1' hf] at hc
        simp only [] at hc
        exact absurd hc (by decide)
      · intro _
        rw [findBestAnswer_static q lang (some sid) fid env mem qa h1' hf]
        simp only []
        rw [trackerCount_record sid _ _ _ h hlook, addInteraction_length, hcount]


/-- Claim C1 (counterexample): the question "open day" takes the tier-1
shortcut with session id "s" registered, and the call returns with the
registry unchanged — no Interaction is appended to the resolved tracker,
against the claimed "exactly one". -/
theorem C1_counterexample :
    (findBestAnswer "open day".data "en".data (some "s".data) none env0 memC1).2 = memC1 ∧
    ¬ (trackerCount (findBestAnswer "open day".data "en".data (some "s".data) none env0 memC1).2 "s".data
        = trackerCount memC1 "s".data + 1) := by
  decide

/-- Witness for the amended C1 at an exact static match (question
"admissions", session "s"). -/
theorem C1_amended_witness :
    (((findBestAnswer "admissions".data "en".data (some "s".data) none env0 []).1.source = "open_days".data →
      (findBestAnswer "admissions".data "en".data (some "s".data) none env0 []).2 = []) ∧
    ((findBestAnswer "admissions".data "en".data (some "s".data) none env0 []).1.source ≠ "open_days".data →
      trackerCount (findBestAnswer "admissions".data "en".data (some "s".data) none env0 []).2 "s".data
        = trackerCount [] "s".data + 1)) :=
  C1_amended "admissions".data "en".data "s".data none env0 [] (by decide)

/-- Claim C9: with `session_id = None` the registry is left unchanged and
the answer is exactly the unenhanced pipeline result. -/
theorem C9_none_session_frame (q lang : Str) (fid : Option Str) (env : Env)
    (mem : Memory) :
    findBestAnswer q lang none fid env mem = (resolveWithoutEnhancer q lang fid env, mem) := by
  by_cases hq : tier1Fires (lowerStr (strip q)) = true
  · rw [findBestAnswer_tier1 q lang none fid env mem hq]
    simp only [resolveWithoutEnhancer, hq, if_true]
  · have hq2 : tier1Fires (lowerStr (strip q)) = false := by
      revert hq
      cases tier1Fires (lowerStr (strip q)) <;> simp
    rcases hf : firstMatch (lowerStr (strip q)) lang with _ | qa
    · rcases hz : fuzzyAccepted (lowerStr (strip q)) lang with _ | qa
      · by_cases hi : 0 < (vectorSearch env.sqrtFn env.qEmbed env.kbEmbeddings 10).2.length
        · rw [findBestAnswer_rag q lang none fid env mem hq2 hf hz hi]
          simp only [resolveWithoutEnhancer, hq2, Bool.false_eq_true, if_false, hf, hz,
            if_pos hi]
          rfl
        · simp only [findBestAnswer, resolveWithoutEnhancer, hq2, Bool.false_eq_true,
            if_false, hf, hz, if_neg hi]
          rfl
      · rw [findBestAnswer_fuzzy q lang none fid env mem qa hq2 hf hz]
        simp only [resolveWithoutEnhancer, hq2, Bool.false_eq_true, if_false, hf, hz]
        rfl
    · rw [findBestAnswer_static q lang none fid env mem qa hq2 hf]
      simp only [resolveWithoutEnhancer, hq2, Bool.false_eq_true, if_false, hf]
      rfl

theorem addAcknowledgment_ne_greeting (tr : ConversationTracker)
    (h : 1 ≤ tr.interactions.length) :
    addAcknowledgment tr ≠ "Hello! What a lovely question to start with.".data := by
  have hlen : ¬ tr.interactions.length = 0 := by omega
  unfold addAcknowledgment
  rw [if_neg hlen]
  by_cases hsub : containsSub (pySetStr tr.topicsDiscussed) (tr.lastTopic.getD []) = true
  · rw [if_pos hsub]
    decide
  · rw [if_neg hsub]
    by_cases hc : tr.emotionalState = "concerned".data
    · rw [if_pos hc]
      decide
    · rw [if_neg hc]
      have h5 : tr.interactions.length % acknowledgments.length < 5 := by
        have hlen5 : acknowledgments.length = 5 := by decide
        rw [hlen5]
        omega
      have hall : ∀ m, m < 5 →
          acknowledgments.getD m [] ≠ "Hello! What a lovely question to start with.".data := by
        decide
      exact hall _ h5

/-- Claim C10: on every enhancing path of `find_best_answer` (sources
"static", "fuzzy" and "rag", with a truthy session id) the returned
answer is `enhance_for_voice` applied to a tracker that already holds the
current interaction — so at least one interaction — possibly followed by
the RAG output translation; and on such a tracker the first-interaction
greeting is never produced. -/
theorem C10_enhance_after_record (q lang sid : Str) (fid : Option Str) (env : Env)
    (mem : Memory) (h : sid ≠ []) :
    (((findBestAnswer q lang (some sid) fid env mem).1.source = "static".data ∨
      (findBestAnswer q lang (some sid) fid env mem).1.source = "fuzzy".data ∨
      (findBestAnswer q lang (some sid) fid env mem).1.source = "rag".data) →
      ∃ base tr fc, 1 ≤ tr.interactions.length ∧
        ((findBestAnswer q lang (some sid) fid env mem).1.answer
            = enhanceForVoice base tr fc ∨
         (findBestAnswer q lang (some sid) fid env mem).1.answer
            = pyTranslate env.translateOut (enhanceForVoice base tr fc))) ∧
    (∀ tr : ConversationTracker, 1 ≤ tr.interactions.length →
      addAcknowledgment tr ≠ "Hello! What a lovely question to start with.".data) := by
  refine ⟨?_, fun tr htr => addAcknowledgment_ne_greeting tr htr⟩
  intro hsrc
  by_cases h1 : tier1Fires (lowerStr (strip q)) = true
  · exfalso
    rw [findBestAnswer_tier1 q lang (some sid) fid env mem h1] at hsrc
    rcases hsrc with hc | hc | hc <;>
      (rw [openDaysAnswer_source] at hc; exact absurd hc (by decide))
  · have h1' := bool_eq_false_of_ne_true h1
    rcases hf : firstMatch (lowerStr (strip q)) lang with _ | qa
    · rcases hz : fuzzyAccepted (lowerStr (strip q)) lang with _ | qa
      · by_cases hi : 0 < (vectorSearch env.sqrtFn env.qEmbed env.kbEmbeddings 10).2.length
        · rw [findBestAnswer_rag q lang (some sid) fid env mem h1' hf hz hi]
          simp only [pyTruthyS_some_of_ne sid h, eq_self_iff_true, if_true]
          by_cases hl : lang ≠ "en".data
          · rw [if_pos hl]
            refine ⟨_, _, _, ?_, Or.inr rfl⟩
            rw [addInteraction_length]
            omega
          · rw [if_neg hl]
            refine ⟨_, _, _, ?_, Or.inl rfl⟩
            rw [addInteraction_length]
            omega
        · exfalso
          rw [findBestAnswer_none_session q lang (some sid) fid env mem h1' hf hz hi
            (pyTruthyS_some_of_ne sid h)] at hsrc
          simp only [] at hsrc
          rcases hsrc with hc | hc | hc <;> exact absurd hc (by decide)
      · rw [findBestAnswer_fuzzy q lang (some sid) fid env mem qa h1' hf hz]
        simp only [pyTruthyS_some_of_ne sid h, eq_self_iff_true, if_true]
        refine ⟨_, _, _, ?_, Or.inl rfl⟩
        rw [addInteraction_length]
        omega
    · rw [findBestAnswer_static q lang (some sid) fid env mem qa h1' hf]
      simp only [pyTruthyS_some_of_ne sid h, eq_self_iff_true, if_true]
      refine ⟨_, _, _, ?_, Or.inl rfl⟩
      rw [addInteraction_length]
      omega

/-- Witness for C10 at an exact static match (question "admissions",
session "s"). -/
theorem C10_enhance_after_record_witness :
    ((((findBestAnswer "admissions".data "en".data (some "s".data) none env0 []).1.source = "static".data ∨
      (findBestAnswer "admissions".data "en".data (some "s".data) none env0 []).1.source = "fuzzy".data ∨
      (findBestAnswer "admissions".data "en".data (some "s".data) none env0 []).1.source = "rag".data) →
      ∃ base tr fc, 1 ≤ tr.interactions.length ∧
        ((findBestAnswer "admissions".data "en".data (some "s".data) none env0 []).1.answer
            = enhanceForVoice base tr fc ∨
         (findBestAnswer "admissions".data "en".data (some "s".data) none env0 []).1.answer
            = pyTranslate env0.translateOut (enhanceForVoice base tr fc))) ∧
    (∀ tr : ConversationTracker, 1 ≤ tr.interactions.length →
      addAcknowledgment tr ≠ "Hello! What a lovely question to start with.".data)) :=
  C10_enhance_after_record "admissions".data "en".data "s".data none env0 [] (by decide)

theorem ratioQ_nonneg (a b : Str) : 0 ≤ ratioQ a b := by
  unfold ratioQ
  split
  · norm_num
  · positivity

theorem le_foldl_max (l : List ℚ) (a : ℚ) : a ≤ l.foldl max a := by
  induction l generalizing a with
  | nil => exact le_refl a
  | cons x t ih => exact le_trans (le_max_left a x) (ih (max a x))

theorem mem_le_foldl_max (l : List ℚ) (a : ℚ) : ∀ x ∈ l, x ≤ l.foldl max a := by
  induction l generalizing a with
  | nil => intro x hx; simp at hx
  | cons y t ih =>
    intro x hx
    rw [List.foldl_cons]
    rcases List.mem_cons.mp hx with h | h
    · subst h
      exact le_trans (le_max_right a x) (le_foldl_max t (max a x))
    · exact ih (max a y) x h

theorem foldl_max_eq_max (l : List ℚ) (a : ℚ) (h : 0 ≤ a) :
    l.foldl max a = max a (l.foldl max 0) := by
  induction l generalizing a with
  | nil => simp [max_eq_left h]
  | cons x t ih =>
    rw [List.foldl_cons, List.foldl_cons]
    rw [ih (max a x) (le_trans h (le_max_left a x)), ih (max 0 x) (le_max_left 0 x)]
    rw [max_assoc 0 x (t.foldl max 0), ← max_assoc a 0 (max x (t.foldl max 0)),
      max_eq_left h, max_assoc a x (t.foldl max 0)]

theorem foldl_max_cases (l : List ℚ) (a : ℚ) : l.foldl max a = a ∨ l.foldl max a ∈ l := by
  induction l generalizing a with
  | nil => left; rfl
  | cons x t ih =>
    rw [List.foldl_cons]
    rcases ih (max a x) with h | h
    · rcases max_choice a x with hm | hm
      · left
        rw [h, hm]
      · right
        rw [h, hm]
        exact List.mem_cons_self x t
    · right
      exact List.mem_cons_of_mem x h

theorem c5_fold_char (pairs : List (QA × ℚ)) : ∀ st : ℚ × Option QA,
    (pairs.foldl c5Step st).1 = (pairs.map (fun p => p.2)).foldl max st.1 ∧
    (pairs.foldl c5Step st).2 =
      (if st.1 < (pairs.map (fun p => p.2)).foldl max st.1 then
        (pairs.find? (fun p => decide (p.2 = (pairs.map (fun p => p.2)).foldl max st.1))).map
          (fun p => p.1)
       else st.2) := by
  induction pairs with
  | nil =>
    intro st
    exact ⟨rfl, by simp⟩
  | cons p rest ih =>
    intro st
    rw [List.foldl_cons, List.map_cons, List.foldl_cons]
    by_cases hlt : st.1 < p.2
    · have hstep : c5Step st p = (p.2, some p.1) := by simp [c5Step, hlt]
      rw [hstep]
      obtain ⟨ih1, ih2⟩ := ih (p.2, some p.1)
      have hmax : max st.1 p.2 = p.2 := max_eq_right (le_of_lt hlt)
      rw [hmax]
      refine ⟨ih1, ?_⟩
      rw [ih2]
      have hst : st.1 < (rest.map (fun p => p.2)).foldl max p.2 :=
        lt_of_lt_of_le hlt (le_foldl_max _ _)
      rw [if_pos hst]
      by_cases hpM : p.2 = (rest.map (fun p => p.2)).foldl max p.2
      · rw [if_neg (by rw [← hpM]; exact lt_irrefl p.2),
          List.find?_cons_of_pos _ (by exact decide_eq_true hpM)]
        rfl
      · have hlt2 : p.2 < (rest.map (fun p => p.2)).foldl max p.2 :=
          lt_of_le_of_ne (le_foldl_max _ _) hpM
        rw [if_pos hlt2, List.find?_cons_of_neg _ (by simp only [decide_eq_true_eq]; exact hpM)]
    · have hstep : c5Step st p = st := by simp [c5Step, hlt]
      rw [hstep]
      obtain ⟨ih1, ih2⟩ := ih st
      have hle : p.2 ≤ st.1 := le_of_not_lt hlt
      have hmax : max st.1 p.2 = st.1 := max_eq_left hle
      rw [hmax]
      refine ⟨ih1, ?_⟩
      rw [ih2]
      by_cases hst : st.1 < (rest.map (fun p => p.2)).foldl max st.1
      · rw [if_pos hst, if_pos hst]
        have hpM : ¬ (p.2 = (rest.map (fun p => p.2)).foldl max st.1) := by
          intro he
          exact absurd hst (not_lt.mpr (he ▸ hle))
        rw [List.find?_cons_of_neg _ (by simp only [decide_eq_true_eq]; exact hpM)]
      · rw [if_neg hst, if_neg hst]

theorem fuzzyFoldVar_eq (q : Str) (qa : QA) : ∀ (vs : List Str) (st : ℚ × Option QA),
    fuzzyFoldVar q qa vs st
      = (vs.map (fun v => (qa, ratioQ q (lowerStr v)))).foldl c5Step st := by
  intro vs
  induction vs with
  | nil => intro st; rfl
  | cons v vt ih =>
    intro st
    rcases st with ⟨bs, bm⟩
    rw [fuzzyFoldVar, List.map_cons, List.foldl_cons]
    rw [ih]
    rfl

theorem fuzzyScan_eq (q lang : Str) : ∀ (L : List QA) (st : ℚ × Option QA),
    fuzzyScan q lang L st
      = (scorePairs q (L.filter (fun qa => decide (qa.language = lang)))).foldl c5Step st := by
  intro L
  induction L with
  | nil => intro st; rfl
  | cons qa L' ih =>
    intro st
    rw [fuzzyScan]
    by_cases hqa : qa.language = lang
    · rw [if_pos (by simp [hqa]), List.filter_cons_of_pos (by simp [hqa])]
      rw [scorePairs, List.flatMap_cons, List.foldl_append, ih, fuzzyFoldVar_eq]
      rfl
    · rw [if_neg (by simp [hqa]), List.filter_cons_of_neg (by simp [hqa]), ih]

theorem foldl_max_flat (q : Str) (F : List QA) : ∀ (a : ℚ), 0 ≤ a →
    ((scorePairs q F).map (fun p => p.2)).foldl max a
      = (F.map (fun qa => entryMax q qa)).foldl max a := by
  induction F with
  | nil => intro a _; rfl
  | cons qa F' ih =>
    intro a ha
    rw [scorePairs, List.flatMap_cons, List.map_append, List.foldl_append,
      List.map_cons, List.foldl_cons]
    have hflat : (((variantList qa).map (fun v => (qa, ratioQ q (lowerStr v)))).map
        (fun p => p.2)) = (variantList qa).map (fun v => ratioQ q (lowerStr v)) := by
      rw [List.map_map]
      rfl
    rw [hflat]
    rw [foldl_max_eq_max _ a ha]
    have : max a (((variantList qa).map (fun v => ratioQ q (lowerStr v))).foldl max 0)
        = max a (entryMax q qa) := rfl
    rw [this]
    exact ih (max a (entryMax q qa)) (le_trans ha (le_max_left a (entryMax q qa)))

theorem entryMax_le_fuzzyMaxAll (q lang : Str) (qa : QA)
    (h : qa ∈ STATIC_QAS.filter (fun qa => decide (qa.language = lang))) :
    entryMax q qa ≤ fuzzyMaxAll q lang := by
  unfold fuzzyMaxAll
  exact mem_le_foldl_max _ 0 _ (List.mem_map.mpr ⟨qa, h, rfl⟩)

theorem find_flat (q : Str) (M : ℚ) (hM : 0 < M) : ∀ (F : List QA),
    (∀ qa ∈ F, entryMax q qa ≤ M) →
    ((scorePairs q F).find? (fun p => decide (p.2 = M))).map (fun p => p.1)
      = F.find? (fun qa => decide (entryMax q qa = M)) := by
  intro F
  induction F with
  | nil => intro _; rfl
  | cons qa F' ih =>
    intro hb
    rw [scorePairs, List.flatMap_cons, List.find?_append]
    by_cases hqa : entryMax q qa = M
    · have hmem : M ∈ (variantList qa).map (fun v => ratioQ q (lowerStr v)) := by
        rcases foldl_max_cases ((variantList qa).map (fun v => ratioQ q (lowerStr v))) 0 with
          h0 | h0
        · exfalso
          rw [entryMax] at hqa
          rw [h0] at hqa
          rw [← hqa] at hM
          exact lt_irrefl 0 hM
        · rw [entryMax] at hqa
          rw [hqa] at h0
          exact h0
      obtain ⟨v, hv, hveq⟩ := List.mem_map.mp hmem
      have hsome : (((variantList qa).map (fun v => (qa, ratioQ q (lowerStr v)))).find?
          (fun p => decide (p.2 = M))).isSome = true := by
        rw [List.find?_isSome]
        exact ⟨(qa, ratioQ q (lowerStr v)), List.mem_map.mpr ⟨v, hv, rfl⟩,
          decide_eq_true hveq⟩
      obtain ⟨r, hr⟩ := Option.isSome_iff_exists.mp hsome
      have hr1 : r.1 = qa := by
        have hrmem := List.mem_of_find?_eq_some hr
        obtain ⟨v', hv', hv'eq⟩ := List.mem_map.mp hrmem
        rw [← hv'eq]
      rw [hr, List.find?_cons_of_pos _ (by exact decide_eq_true hqa)]
      simp [hr1]
    · have hnone : ((variantList qa).map (fun v => (qa, ratioQ q (lowerStr v)))).find?
          (fun p => decide (p.2 = M)) = none := by
        rw [List.find?_eq_none]
        intro p hp
        obtain ⟨v, hv, hveq⟩ := List.mem_map.mp hp
        simp only [decide_eq_true_eq]
        intro he
        have hle : p.2 ≤ entryMax q qa := by
          rw [← hveq]
          exact mem_le_foldl_max _ 0 _ (List.mem_map.mpr ⟨v, hv, rfl⟩)
        rw [he] at hle
        have := hb qa (List.mem_cons_self qa F')
        exact hqa (le_antisymm this hle)
      rw [hnone, List.find?_cons_of_neg _ (by simp only [decide_eq_true_eq]; exact hqa)]
      rw [Option.none_or]
      exact ih (fun qa' h' => hb qa' (List.mem_cons_of_mem _ h'))

/-- Claim C5: the fuzzy static tier accepts exactly when the maximum
similarity ratio over every variant of every same-language entry strictly
exceeds 0.8, and it returns the first entry (in table order) attaining
that maximum. -/
theorem C5_fuzzy_tier (q lang : Str) :
    fuzzyAccepted q lang =
      (if (4 : ℚ)/5 < fuzzyMaxAll q lang then
        (STATIC_QAS.filter (fun qa => decide (qa.language = lang))).find?
          (fun qa => decide (entryMax q qa = fuzzyMaxAll q lang))
       else none) := by
  obtain ⟨h1, h2⟩ := c5_fold_char (scorePairs q (STATIC_QAS.filter
    (fun qa => decide (qa.language = lang)))) (0, none)
  have hbest : fuzzyBest q lang = (scorePairs q (STATIC_QAS.filter
      (fun qa => decide (qa.language = lang)))).foldl c5Step (0, none) :=
    fuzzyScan_eq q lang STATIC_QAS (0, none)
  have hMeq : ((scorePairs q (STATIC_QAS.filter
      (fun qa => decide (qa.language = lang)))).map (fun p => p.2)).foldl max
      (((0 : ℚ), (none : Option QA)).1) = fuzzyMaxAll q lang := by
    rw [foldl_max_flat q _ 0 (le_refl 0)]
    rfl
  rw [← hbest] at h1 h2
  rw [hMeq] at h1 h2
  have h2f : (fuzzyBest q lang).2 = (if (0 : ℚ) < fuzzyMaxAll q lang then
      ((scorePairs q (STATIC_QAS.filter (fun qa => decide (qa.language = lang)))).find?
        (fun p => decide (p.2 = fuzzyMaxAll q lang))).map (fun p => p.1)
      else none) := h2
  have hacc : fuzzyAccepted q lang = (if (fuzzyBest q lang).2.isSome = true ∧
      (4 : ℚ)/5 < (fuzzyBest q lang).1 then (fuzzyBest q lang).2 else none) := rfl
  rw [hacc, h1, h2f]
  by_cases hthr : (4 : ℚ)/5 < fuzzyMaxAll q lang
  · have hpos : (0 : ℚ) < fuzzyMaxAll q lang := lt_trans (by norm_num) hthr
    rw [if_pos hpos, if_pos hthr]
    rw [find_flat q _ hpos _ (fun qa h => entryMax_le_fuzzyMaxAll q lang qa h)]
    have hattain : ∃ qa ∈ STATIC_QAS.filter (fun qa => decide (qa.language = lang)),
        entryMax q qa = fuzzyMaxAll q lang := by
      rcases foldl_max_cases ((STATIC_QAS.filter (fun qa => decide (qa.language = lang))).map
        (fun qa => entryMax q qa)) 0 with h0 | h0
      · exfalso
        unfold fuzzyMaxAll at hpos
        rw [h0] at hpos
        exact lt_irrefl 0 hpos
      · obtain ⟨qa, hqa, hqaeq⟩ := List.mem_map.mp h0
        exact ⟨qa, hqa, hqaeq⟩
    obtain ⟨qa, hqa, hqaeq⟩ := hattain
    have hsome : ((STATIC_QAS.filter (fun qa => decide (qa.language = lang))).find?
        (fun qa => decide (entryMax q qa = fuzzyMaxAll q lang))).isSome = true := by
      rw [List.find?_isSome]
      exact ⟨qa, hqa, decide_eq_true hqaeq⟩
    obtain ⟨r, hr⟩ := Option.isSome_iff_exists.mp hsome
    rw [hr]
    rw [if_pos ⟨rfl, hthr⟩]
  · rw [if_neg hthr]
    by_cases hpos : (0 : ℚ) < fuzzyMaxAll q lang
    · rw [if_pos hpos]
      rw [if_neg (fun hc => hthr hc.2)]
    · rw [if_neg hpos]
      rw [if_neg (fun hc => absurd hc.1 (by decide))]

set_option maxRecDepth 40000 in
set_option maxHeartbeats 4000000 in
theorem staticTable_selfMatch_A : STATIC_QAS_A.all (fun qa =>
    !tier1Fires (lowerStr (strip qa.key)) &&
    decide (firstMatch (lowerStr (strip qa.key)) qa.language = some qa)) = true := by
  decide

set_option maxRecDepth 40000 in
set_option maxHeartbeats 4000000 in
theorem staticTable_selfMatch_B : STATIC_QAS_B.all (fun qa =>
    !tier1Fires (lowerStr (strip qa.key)) &&
    decide (firstMatch (lowerStr (strip qa.key)) qa.language = some qa)) = true := by
  decide

set_option maxRecDepth 40000 in
set_option maxHeartbeats 4000000 in
theorem staticTable_selfMatch_C : STATIC_QAS_C.all (fun qa =>
    !tier1Fires (lowerStr (strip qa.key)) &&
    decide (firstMatch (lowerStr (strip qa.key)) qa.language = some qa)) = true := by
  decide

set_option maxRecDepth 40000 in
set_option maxHeartbeats 4000000 in
theorem staticTable_selfMatch_D : STATIC_QAS_D.all (fun qa =>
    !tier1Fires (lowerStr (strip qa.key)) &&
    decide (firstMatch (lowerStr (strip qa.key)) qa.language = some qa)) = true := by
  decide

theorem staticTable_selfMatch : STATIC_QAS.all (fun qa =>
    !tier1Fires (lowerStr (strip qa.key)) &&
    decide (firstMatch (lowerStr (strip qa.key)) qa.language = some qa)) = true := by
  have h : STATIC_QAS = STATIC_QAS_A ++ STATIC_QAS_B ++ STATIC_QAS_C ++ STATIC_QAS_D := rfl
  rw [h, List.all_append, List.all_append, List.all_append,
    staticTable_selfMatch_A, staticTable_selfMatch_B, staticTable_selfMatch_C,
    staticTable_selfMatch_D]
  rfl

/-- Claim C2: submitting a static entry\x27s exact key as the question, in
that entry\x27s language, resolves at the exact static tier: the result
carries the entry\x27s url, label, key and source "static", and (absent a
voice session) the entry\x27s verbatim answer. -/
theorem C2_exact_key_roundtrip (qa : QA) (hqa : qa ∈ STATIC_QAS)
    (familyId : Option Str) (env : Env) (mem : Memory) :
    (findBestAnswer qa.key qa.language none familyId env mem).1
      = { answer := qa.answer, url := some qa.url, label := some qa.label,
          matchedKey := some qa.key, source := "static".data } := by
  have hall := List.all_eq_true.mp staticTable_selfMatch qa hqa
  rw [Bool.and_eq_true] at hall
  have hq : tier1Fires (lowerStr (strip qa.key)) = false := by
    rw [← Bool.not_eq_true']
    exact hall.1
  have hf : firstMatch (lowerStr (strip qa.key)) qa.language = some qa :=
    of_decide_eq_true hall.2
  rw [findBestAnswer_static qa.key qa.language none familyId env mem qa hq hf]
  simp only [pyTruthyS, Bool.false_eq_true, if_false]

theorem C2_exact_key_roundtrip_witness :
    (findBestAnswer qaFirst.key qaFirst.language none none env0 []).1
      = { answer := qaFirst.answer, url := some qaFirst.url, label := some qaFirst.label,
          matchedKey := some qaFirst.key, source := "static".data } :=
  C2_exact_key_roundtrip qaFirst (by decide) none env0 []

theorem flmInner_cons_pos (old : Nat → Nat) (blo bhi i j : Nat) (js : List Nat)
    (new : Nat → Nat) (best : Nat × Nat × Nat) (hg : blo ≤ j ∧ j < bhi) :
    flmInner old blo bhi i (j :: js) (new, best)
      = flmInner old blo bhi i js
          (fun x => if x = j then (if j = 0 then 0 else old (j - 1)) + 1 else new x,
           if best.2.2 < (if j = 0 then 0 else old (j - 1)) + 1 then
             (i + 1 - ((if j = 0 then 0 else old (j - 1)) + 1),
              j + 1 - ((if j = 0 then 0 else old (j - 1)) + 1),
              (if j = 0 then 0 else old (j - 1)) + 1)
           else best) := by
  simp only [flmInner, if_pos hg]

theorem flmInner_cons_neg (old : Nat → Nat) (blo bhi i j : Nat) (js : List Nat)
    (new : Nat → Nat) (best : Nat × Nat × Nat) (hg : ¬(blo ≤ j ∧ j < bhi)) :
    flmInner old blo bhi i (j :: js) (new, best) = flmInner old blo bhi i js (new, best) := by
  simp only [flmInner, if_neg hg]

theorem flmInner_bounds (old : Nat → Nat) (alo ahi blo bhi i : Nat)
    (hi1 : alo ≤ i) (hi2 : i < ahi)
    (hoB : ∀ x, old x ≤ x + 1 - blo) (hoA : ∀ x, old x ≤ i - alo) :
    ∀ (js : List Nat) (new : Nat → Nat) (best : Nat × Nat × Nat),
    (∀ x, new x ≤ x + 1 - blo) → (∀ x, new x ≤ i + 1 - alo) →
    windowBest alo ahi blo bhi best →
    (∀ x, (flmInner old blo bhi i js (new, best)).1 x ≤ x + 1 - blo) ∧
    (∀ x, (flmInner old blo bhi i js (new, best)).1 x ≤ i + 1 - alo) ∧
    windowBest alo ahi blo bhi (flmInner old blo bhi i js (new, best)).2 := by
  intro js
  induction js with
  | nil => intro new best h1 h2 h3; exact ⟨h1, h2, h3⟩
  | cons j js ih =>
    intro new best h1 h2 h3
    by_cases hg : blo ≤ j ∧ j < bhi
    · have hk1 : (if j = 0 then 0 else old (j - 1)) + 1 ≤ j + 1 - blo := by
        by_cases hj0 : j = 0
        · rw [if_pos hj0]
          omega
        · rw [if_neg hj0]
          have := hoB (j - 1)
          omega
      have hk2 : (if j = 0 then 0 else old (j - 1)) + 1 ≤ i + 1 - alo := by
        by_cases hj0 : j = 0
        · rw [if_pos hj0]
          omega
        · rw [if_neg hj0]
          have := hoA (j - 1)
          omega
      rw [flmInner_cons_pos old blo bhi i j js new best hg]
      refine ih _ _ ?_ ?_ ?_
      · intro x
        by_cases hx : x = j
        · rw [if_pos hx, hx]
          exact hk1
        · rw [if_neg hx]
          exact h1 x
      · intro x
        by_cases hx : x = j
        · rw [if_pos hx]
          exact hk2
        · rw [if_neg hx]
          exact h2 x
      · by_cases hb : best.2.2 < (if j = 0 then 0 else old (j - 1)) + 1
        · rw [if_pos hb]
          simp only [windowBest]
          omega
        · rw [if_neg hb]
          exact h3
    · rw [flmInner_cons_neg old blo bhi i j js new best hg]
      exact ih new best h1 h2 h3

theorem flmRows_cons (a b : Str) (blo bhi i : Nat) (is : List Nat)
    (old : Nat → Nat) (best : Nat × Nat × Nat) :
    flmRows a b blo bhi (i :: is) (old, best)
      = flmRows a b blo bhi is
          (flmInner old blo bhi i (b2jFor b (a.getD i (Char.ofNat 0))) ((fun _ => 0), best)) := by
  simp only [flmRows]

theorem flmRows_nil (a b : Str) (blo bhi : Nat) (st : (Nat → Nat) × (Nat × Nat × Nat)) :
    flmRows a b blo bhi [] st = st := rfl

theorem flmRows_append (a b : Str) (blo bhi : Nat) :
    ∀ (l1 l2 : List Nat) (st : (Nat → Nat) × (Nat × Nat × Nat)),
    flmRows a b blo bhi (l1 ++ l2) st
      = flmRows a b blo bhi l2 (flmRows a b blo bhi l1 st) := by
  intro l1
  induction l1 with
  | nil => intro l2 st; rfl
  | cons i is ih =>
    intro l2 st
    obtain ⟨old, best⟩ := st
    rw [List.cons_append, flmRows_cons, flmRows_cons, ih]

theorem flmRows_bounds (a b : Str) (alo ahi blo bhi : Nat) :
    ∀ (n s : Nat) (old : Nat → Nat) (best : Nat × Nat × Nat),
    alo ≤ s → s + n ≤ ahi →
    (∀ x, old x ≤ x + 1 - blo) → (∀ x, old x ≤ s - alo) →
    windowBest alo ahi blo bhi best →
    windowBest alo ahi blo bhi (flmRows a b blo bhi (List.range' s n) (old, best)).2 := by
  intro n
  induction n with
  | zero => intro s old best _ _ _ _ hb; exact hb
  | succ n ih =>
    intro s old best hs1 hs2 hoB hoA hb
    rw [List.range'_succ, flmRows_cons]
    obtain ⟨hB, hA, hw⟩ := flmInner_bounds old alo ahi blo bhi s hs1 (by omega) hoB hoA
      (b2jFor b (a.getD s (Char.ofNat 0))) (fun _ => 0) best
      (fun x => Nat.zero_le _) (fun x => Nat.zero_le _) hb
    exact ih (s + 1)
      (flmInner old blo bhi s (b2jFor b (a.getD s (Char.ofNat 0))) ((fun _ => 0), best)).1
      (flmInner old blo bhi s (b2jFor b (a.getD s (Char.ofNat 0))) ((fun _ => 0), best)).2
      (by omega) (by omega) hB (fun x => by have := hA x; omega) hw

theorem extendLeft_windowBest (a b : Str) (alo ahi blo bhi : Nat) :
    ∀ (fuel : Nat) (best : Nat × Nat × Nat), windowBest alo ahi blo bhi best →
    windowBest alo ahi blo bhi (extendLeft a b alo blo fuel best) := by
  intro fuel
  induction fuel with
  | zero => intro best hb; exact hb
  | succ fuel ih =>
    intro best hb
    obtain ⟨i, j, k⟩ := best
    simp only [windowBest] at hb
    simp only [extendLeft]
    split
    · next hc =>
      obtain ⟨hc1, hc2, _⟩ := hc
      apply ih
      simp only [windowBest]
      omega
    · next =>
      simp only [windowBest]
      omega

theorem extendRight_windowBest (a b : Str) (alo ahi blo bhi : Nat) :
    ∀ (fuel : Nat) (best : Nat × Nat × Nat), windowBest alo ahi blo bhi best →
    windowBest alo ahi blo bhi (extendRight a b ahi bhi fuel best) := by
  intro fuel
  induction fuel with
  | zero => intro best hb; exact hb
  | succ fuel ih =>
    intro best hb
    obtain ⟨i, j, k⟩ := best
    simp only [windowBest] at hb
    simp only [extendRight]
    split
    · next hc =>
      obtain ⟨hc1, hc2, _⟩ := hc
      apply ih
      simp only [windowBest]
      omega
    · next =>
      simp only [windowBest]
      omega

theorem findLongestMatch_bounds (a b : Str) (alo ahi blo bhi : Nat)
    (h1 : alo ≤ ahi) (h2 : blo ≤ bhi) :
    windowBest alo ahi blo bhi (findLongestMatch a b alo ahi blo bhi) := by
  unfold findLongestMatch
  apply extendRight_windowBest
  apply extendLeft_windowBest
  exact flmRows_bounds a b alo ahi blo bhi (ahi - alo) alo (fun _ => 0) (alo, blo, 0)
    (le_refl alo) (by omega) (fun x => Nat.zero_le _) (fun x => Nat.zero_le _)
    (by simp only [windowBest]; omega)

theorem matchesAux_le (a b : Str) :
    ∀ (fuel alo ahi blo bhi : Nat), alo ≤ ahi → blo ≤ bhi →
    matchesAux a b fuel alo ahi blo bhi ≤ ahi - alo ∧
    matchesAux a b fuel alo ahi blo bhi ≤ bhi - blo := by
  intro fuel
  induction fuel with
  | zero => intro alo ahi blo bhi _ _; exact ⟨Nat.zero_le _, Nat.zero_le _⟩
  | succ fuel ih =>
    intro alo ahi blo bhi h1 h2
    have hw := findLongestMatch_bounds a b alo ahi blo bhi h1 h2
    simp only [windowBest] at hw
    simp only [matchesAux]
    split
    · exact ⟨Nat.zero_le _, Nat.zero_le _⟩
    · obtain ⟨w1, w2, w3, w4⟩ := hw
      have r1 := ih alo (findLongestMatch a b alo ahi blo bhi).1 blo
        (findLongestMatch a b alo ahi blo bhi).2.1 w1 w3
      have r2 := ih ((findLongestMatch a b alo ahi blo bhi).1
          + (findLongestMatch a b alo ahi blo bhi).2.2) ahi
        ((findLongestMatch a b alo ahi blo bhi).2.1
          + (findLongestMatch a b alo ahi blo bhi).2.2) bhi (by omega) (by omega)
      constructor <;> omega

theorem matchesTotal_le (a b : Str) :
    matchesTotal a b ≤ a.length ∧ matchesTotal a b ≤ b.length := by
  have := matchesAux_le a b (a.length + b.length + 1) 0 a.length 0 b.length
    (Nat.zero_le _) (Nat.zero_le _)
  unfold matchesTotal
  omega

theorem ratioQ_le_one (a b : Str) : ratioQ a b ≤ 1 := by
  unfold ratioQ
  split
  · exact le_refl 1
  · next h =>
    have hd : (0 : ℚ) < ((a.length + b.length : ℕ) : ℚ) := by
      have : 0 < a.length + b.length := Nat.pos_of_ne_zero h
      exact_mod_cast this
    rw [div_le_one hd]
    have hm := matchesTotal_le a b
    have h2 : 2 * matchesTotal a b ≤ a.length + b.length := by omega
    exact_mod_cast h2

theorem charIndicesAux_ge (c : Char) :
    ∀ (s : Str) (off x : Nat), x ∈ charIndicesAux c s off → off ≤ x := by
  intro s
  induction s with
  | nil =>
    intro off x hx
    simp [charIndicesAux] at hx
  | cons d s ih =>
    intro off x hx
    simp only [charIndicesAux] at hx
    by_cases hd : d = c
    · rw [if_pos hd] at hx
      rcases List.mem_cons.mp hx with h | h
      · omega
      · have := ih (off + 1) x h
        omega
    · rw [if_neg hd] at hx
      have := ih (off + 1) x hx
      omega

theorem charIndicesAux_pairwise (c : Char) :
    ∀ (s : Str) (off : Nat),
    List.Pairwise (fun x y : Nat => x < y) (charIndicesAux c s off) := by
  intro s
  induction s with
  | nil => intro off; exact List.Pairwise.nil
  | cons d s ih =>
    intro off
    simp only [charIndicesAux]
    by_cases hd : d = c
    · rw [if_pos hd]
      refine List.Pairwise.cons ?_ (ih (off + 1))
      intro y hy
      have := charIndicesAux_ge c s (off + 1) y hy
      omega
    · rw [if_neg hd]
      exact ih (off + 1)

theorem charIndicesAux_mem (c : Char) :
    ∀ (s : Str) (off t : Nat), t < s.length → s.getD t (Char.ofNat 0) = c →
    off + t ∈ charIndicesAux c s off := by
  intro s
  induction s with
  | nil =>
    intro off t ht
    simp at ht
  | cons d s ih =>
    intro off t ht hc
    simp only [charIndicesAux]
    cases t with
    | zero =>
      have hd : d = c := hc
      rw [if_pos hd]
      exact List.mem_cons_self _ _
    | succ t =>
      have ht2 : t < s.length := by
        simp only [List.length_cons] at ht
        omega
      have hc2 : s.getD t (Char.ofNat 0) = c := hc
      have hmem := ih (off + 1) t ht2 hc2
      have hx : off + (t + 1) = (off + 1) + t := by omega
      by_cases hd : d = c
      · rw [if_pos hd]
        refine List.mem_cons_of_mem _ ?_
        rw [hx]
        exact hmem
      · rw [if_neg hd]
        rw [hx]
        exact hmem

theorem charIndices_self (w : Str) (i : Nat) (hi : i < w.length) :
    i ∈ charIndices w (w.getD i (Char.ofNat 0)) := by
  have := charIndicesAux_mem (w.getD i (Char.ofNat 0)) w 0 i hi rfl
  simpa using this

theorem charIndices_pairwise (w : Str) (c : Char) :
    List.Pairwise (fun x y : Nat => x < y) (charIndices w c) :=
  charIndicesAux_pairwise c w 0

theorem sorted_split_at {js : List Nat}
    (h : List.Pairwise (fun x y : Nat => x < y) js) {r : Nat} (hr : r ∈ js) :
    ∃ u v, js = u ++ r :: v ∧ (∀ x ∈ u, x < r) ∧ (∀ x ∈ v, r < x) := by
  obtain ⟨u, v, rfl⟩ := List.append_of_mem hr
  rw [List.pairwise_append] at h
  obtain ⟨h1, h2, h3⟩ := h
  refine ⟨u, v, rfl, ?_, ?_⟩
  · intro x hx
    exact h3 x hx r (List.mem_cons_self _ _)
  · intro x hx
    exact (List.pairwise_cons.mp h2).1 x hx

theorem flmInner_append (old : Nat → Nat) (blo bhi i : Nat) :
    ∀ (u v : List Nat) (st : (Nat → Nat) × (Nat × Nat × Nat)),
    flmInner old blo bhi i (u ++ v) st
      = flmInner old blo bhi i v (flmInner old blo bhi i u st) := by
  intro u
  induction u with
  | nil => intro v st; rfl
  | cons j u ih =>
    intro v st
    obtain ⟨new, best⟩ := st
    by_cases hg : blo ≤ j ∧ j < bhi
    · rw [List.cons_append, flmInner_cons_pos old blo bhi i j (u ++ v) new best hg,
        flmInner_cons_pos old blo bhi i j u new best hg, ih]
    · rw [List.cons_append, flmInner_cons_neg old blo bhi i j (u ++ v) new best hg,
        flmInner_cons_neg old blo bhi i j u new best hg, ih]

theorem flmInner_best_frozen (old : Nat → Nat) (n i : Nat) :
    ∀ (u : List Nat) (new : Nat → Nat) (best : Nat × Nat × Nat),
    (∀ j ∈ u, (if j = 0 then 0 else old (j - 1)) + 1 ≤ best.2.2) →
    (flmInner old 0 n i u (new, best)).2 = best ∧
    (∀ x, x ∉ u → (flmInner old 0 n i u (new, best)).1 x = new x) := by
  intro u
  induction u with
  | nil => intro new best _; exact ⟨rfl, fun x _ => rfl⟩
  | cons j u ih =>
    intro new best hk
    by_cases hg : 0 ≤ j ∧ j < n
    · rw [flmInner_cons_pos old 0 n i j u new best hg]
      have hkj := hk j (List.mem_cons_self _ _)
      rw [if_neg (show ¬(best.2.2 < (if j = 0 then 0 else old (j - 1)) + 1) by omega)]
      obtain ⟨ih1, ih2⟩ := ih
        (fun x => if x = j then (if j = 0 then 0 else old (j - 1)) + 1 else new x) best
        (fun q hq => hk q (List.mem_cons_of_mem _ hq))
      refine ⟨ih1, ?_⟩
      intro x hx
      rw [ih2 x (fun hxu => hx (List.mem_cons_of_mem _ hxu))]
      rw [if_neg (fun hxj => hx (by rw [hxj]; exact List.mem_cons_self _ _))]
    · rw [flmInner_cons_neg old 0 n i j u new best hg]
      obtain ⟨ih1, ih2⟩ := ih new best (fun q hq => hk q (List.mem_cons_of_mem _ hq))
      exact ⟨ih1, fun x hx => ih2 x (fun hxu => hx (List.mem_cons_of_mem _ hxu))⟩

theorem flmRow_diag (w : Str) (hlen : w.length < 200) (i : Nat) (hi : i < w.length)
    (old : Nat → Nat) (hoB : ∀ x, old x ≤ x + 1) (hoA : ∀ x, old x ≤ i)
    (hdiag : (if i = 0 then 0 else old (i - 1)) = i) :
    (flmInner old 0 w.length i (b2jFor w (w.getD i (Char.ofNat 0)))
        ((fun _ => 0), (0, 0, i))).1 i = i + 1 ∧
    (flmInner old 0 w.length i (b2jFor w (w.getD i (Char.ofNat 0)))
        ((fun _ => 0), (0, 0, i))).2 = (0, 0, i + 1) := by
  have hb2j : b2jFor w (w.getD i (Char.ofNat 0)) = charIndices w (w.getD i (Char.ofNat 0)) := by
    simp only [b2jFor]
    rw [if_neg (fun hc => absurd hc.1 (by omega))]
  rw [hb2j]
  obtain ⟨u, v, hsplit, hu, hv⟩ := sorted_split_at
    (charIndices_pairwise w (w.getD i (Char.ofNat 0))) (charIndices_self w i hi)
  rw [hsplit, flmInner_append]
  have hku : ∀ j ∈ u, (if j = 0 then 0 else old (j - 1)) + 1
      ≤ (((0 : Nat), (0 : Nat), i) : Nat × Nat × Nat).2.2 := by
    intro j hj
    have hji := hu j hj
    show (if j = 0 then 0 else old (j - 1)) + 1 ≤ i
    by_cases hj0 : j = 0
    · rw [if_pos hj0]
      omega
    · rw [if_neg hj0]
      have := hoB (j - 1)
      omega
  obtain ⟨hA2, _⟩ := flmInner_best_frozen old w.length i u (fun _ => 0) (0, 0, i) hku
  have hstA : flmInner old 0 w.length i u ((fun _ => 0), (0, 0, i))
      = ((flmInner old 0 w.length i u ((fun _ => 0), (0, 0, i))).1, (0, 0, i)) :=
    Prod.ext rfl hA2
  rw [hstA]
  rw [flmInner_cons_pos old 0 w.length i i v _ (0, 0, i) ⟨Nat.zero_le _, hi⟩]
  rw [hdiag]
  rw [if_pos (show (((0 : Nat), (0 : Nat), i) : Nat × Nat × Nat).2.2 < i + 1 from
    Nat.lt_succ_self i)]
  rw [Nat.sub_self]
  have hkv : ∀ j ∈ v, (if j = 0 then 0 else old (j - 1)) + 1
      ≤ (((0 : Nat), (0 : Nat), i + 1) : Nat × Nat × Nat).2.2 := by
    intro j hj
    show (if j = 0 then 0 else old (j - 1)) + 1 ≤ i + 1
    by_cases hj0 : j = 0
    · rw [if_pos hj0]
      omega
    · rw [if_neg hj0]
      have := hoA (j - 1)
      omega
  obtain ⟨hC2, hC1⟩ := flmInner_best_frozen old w.length i v
    (fun x => if x = i then i + 1
      else (flmInner old 0 w.length i u ((fun _ => 0), (0, 0, i))).1 x)
    (0, 0, i + 1) hkv
  constructor
  · rw [hC1 i (fun hiv => absurd (hv i hiv) (lt_irrefl i))]
    simp
  · exact hC2

theorem flmRows_diag (w : Str) (hlen : w.length < 200) :
    ∀ i : Nat, i ≤ w.length →
    (∀ x, (flmRows w w 0 w.length (List.range' 0 i) ((fun _ => 0), (0, 0, 0))).1 x ≤ x + 1) ∧
    (∀ x, (flmRows w w 0 w.length (List.range' 0 i) ((fun _ => 0), (0, 0, 0))).1 x ≤ i) ∧
    ((if i = 0 then 0
      else (flmRows w w 0 w.length (List.range' 0 i) ((fun _ => 0), (0, 0, 0))).1 (i - 1)) = i) ∧
    (flmRows w w 0 w.length (List.range' 0 i) ((fun _ => 0), (0, 0, 0))).2 = (0, 0, i) := by
  intro i
  induction i with
  | zero =>
    intro _
    exact ⟨fun x => Nat.zero_le _, fun x => Nat.zero_le _, rfl, rfl⟩
  | succ i ih =>
    intro hi1
    have hi : i < w.length := by omega
    obtain ⟨p1, p2, p3, p4⟩ := ih (by omega)
    rw [List.range'_1_concat, Nat.zero_add, flmRows_append]
    have hst : flmRows w w 0 w.length (List.range' 0 i) ((fun _ => 0), (0, 0, 0))
        = ((flmRows w w 0 w.length (List.range' 0 i) ((fun _ => 0), (0, 0, 0))).1, (0, 0, i)) :=
      Prod.ext rfl p4
    rw [hst, flmRows_cons, flmRows_nil]
    obtain ⟨hd1, hd2⟩ := flmRow_diag w hlen i hi
      (flmRows w w 0 w.length (List.range' 0 i) ((fun _ => 0), (0, 0, 0))).1 p1 p2 p3
    obtain ⟨hbB, hbA, _⟩ := flmInner_bounds
      (flmRows w w 0 w.length (List.range' 0 i) ((fun _ => 0), (0, 0, 0))).1
      0 w.length 0 w.length i (Nat.zero_le _) hi
      (fun x => by have := p1 x; omega) (fun x => by have := p2 x; omega)
      (b2jFor w (w.getD i (Char.ofNat 0))) (fun _ => 0) (0, 0, i)
      (fun x => Nat.zero_le _) (fun x => Nat.zero_le _)
      (by simp only [windowBest]; omega)
    refine ⟨fun x => ?_, fun x => ?_, ?_, hd2⟩
    · have := hbB x
      omega
    · have := hbA x
      omega
    · rw [if_neg (Nat.succ_ne_zero i)]
      simpa using hd1

theorem findLongestMatch_self (w : Str) (hlen : w.length < 200) :
    findLongestMatch w w 0 w.length 0 w.length = (0, 0, w.length) := by
  obtain ⟨_, _, _, p4⟩ := flmRows_diag w hlen w.length (le_refl _)
  simp only [findLongestMatch]
  rw [show (flmRows w w 0 w.length (List.range' 0 (w.length - 0))
      ((fun _ => 0), (0, 0, 0))).2 = (0, 0, w.length) from p4]
  rcases Nat.eq_zero_or_pos w.length with h0 | hpos
  · rw [h0]
    rfl
  · obtain ⟨m, hm⟩ := Nat.exists_eq_succ_of_ne_zero (Nat.pos_iff_ne_zero.mp hpos)
    rw [hm]
    show extendRight w w (m + 1) (m + 1) (m + 1) (0, 0, m + 1) = (0, 0, m + 1)
    simp only [extendRight]
    rw [if_neg (fun hc => absurd hc.1 (by omega))]

theorem matchesTotal_self (w : Str) (hlen : w.length < 200) :
    matchesTotal w w = w.length := by
  unfold matchesTotal
  simp only [matchesAux]
  rw [findLongestMatch_self w hlen]
  rcases Nat.eq_zero_or_pos w.length with h0 | hpos
  · rw [h0]
    rfl
  · rw [if_neg (show (((0 : Nat), (0 : Nat), w.length) : Nat × Nat × Nat).2.2 = 0 → False from
      fun hc => Nat.pos_iff_ne_zero.mp hpos hc)]
    have e1 : matchesAux w w (w.length + w.length) 0 0 0 0 = 0 :=
      Nat.le_zero.mp (matchesAux_le w w (w.length + w.length) 0 0 0 0
        (le_refl _) (le_refl _)).1
    have e2 : matchesAux w w (w.length + w.length) (0 + w.length) w.length
        (0 + w.length) w.length = 0 := by
      have := (matchesAux_le w w (w.length + w.length) (0 + w.length) w.length
        (0 + w.length) w.length (by omega) (by omega)).1
      omega
    show w.length + matchesAux w w (w.length + w.length) 0 0 0 0
        + matchesAux w w (w.length + w.length) (0 + w.length) w.length
            (0 + w.length) w.length = w.length
    rw [e1, e2]
    omega

theorem ratioQ_self (w : Str) (hlen : w.length < 200) : ratioQ w w = 1 := by
  unfold ratioQ
  rcases Nat.eq_zero_or_pos w.length with h0 | hpos
  · rw [if_pos (by omega)]
  · rw [if_neg (by omega), matchesTotal_self w hlen]
    have hb : (((w.length + w.length : ℕ)) : ℚ) ≠ 0 := by
      have : w.length + w.length ≠ 0 := by omega
      exact_mod_cast this
    have hnum : ((2 * w.length : ℕ) : ℚ) = ((w.length + w.length : ℕ) : ℚ) := by
      push_cast
      ring
    rw [hnum, div_self hb]

/-- Claim C6, counterexample: the similarity score of
`SequenceMatcher.ratio` is not symmetric — for the pair ("aba", "babba")
the two orders give 3/4 and 1/2, because `get_matching_blocks` depends on
which string is first. -/
theorem C6_counterexample :
    ¬ (ratioQ "aba".data "babba".data = ratioQ "babba".data "aba".data) := by
  have h1 : matchesTotal "aba".data "babba".data = 3 := by decide
  have h2 : matchesTotal "babba".data "aba".data = 2 := by decide
  have l1 : ("aba".data.length) = 3 := rfl
  have l2 : ("babba".data.length) = 5 := rfl
  simp only [ratioQ, h1, h2, l1, l2]
  norm_num

set_option maxRecDepth 40000 in
set_option maxHeartbeats 4000000 in
/-- Claim C6 (amended): the fuzzy similarity score always lies in the
interval [0,1], but it is not symmetric in its two arguments; a string
scores 1.0 against itself whenever it is shorter than the 200-character
autojunk threshold (every lower-cased variant of the static table is),
and a question that matches some same-language variant exactly is
resolved by the exact tier 2 — provided the tier-1 open-day keyword
shortcut does not fire first. -/
theorem C6_amended :
    (∀ a b : Str, 0 ≤ ratioQ a b ∧ ratioQ a b ≤ 1) ∧
    (∀ w : Str, w.length < 200 → ratioQ w w = 1) ∧
    (STATIC_QAS.all (fun qa => (variantList qa).all
      (fun v => decide ((lowerStr v).length < 200))) = true) ∧
    (∀ (question language : Str) (sid fid : Option Str) (env : Env) (mem : Memory),
      tier1Fires (lowerStr (strip question)) = false →
      (firstMatch (lowerStr (strip question)) language).isSome = true →
      (findBestAnswer question language sid fid env mem).1.source = "static".data) := by
  refine ⟨fun a b => ⟨ratioQ_nonneg a b, ratioQ_le_one a b⟩, fun w h => ratioQ_self w h,
    by decide, ?_⟩
  intro question language sid fid env mem hq hf
  obtain ⟨qa, hqa⟩ := Option.isSome_iff_exists.mp hf
  rw [findBestAnswer_static question language sid fid env mem qa hq hqa]

set_option maxRecDepth 40000 in
set_option maxHeartbeats 4000000 in
theorem C6_amended_witness :
    (0 ≤ ratioQ "fee".data "visit".data ∧ ratioQ "fee".data "visit".data ≤ 1) ∧
    ratioQ "open".data "open".data = 1 ∧
    (findBestAnswer qaFirst.key qaFirst.language none none env0 []).1.source
      = "static".data :=
  ⟨C6_amended.1 "fee".data "visit".data,
   C6_amended.2.1 "open".data (by decide),
   C6_amended.2.2.2 qaFirst.key qaFirst.language none none env0 [] (by decide) (by decide)⟩

end Emily
